import Mathlib

/-!
Verification of the pycot report normalization and caching pipeline.

The Python source (pycot/reports.py, pycot/pycot.py, pycot/utils.py,
pycot/extract_report_data.py) manipulates pandas DataFrames.  We embed a
DataFrame as a list of column labels together with a list of rows, each row
an association list from column label to cell.  Numeric cells are modelled
with integers (the source casts every data column to float and then only
subtracts and negates, so exact integers are a faithful carrier for the
claims considered here); the float NaN is the explicit `Cell.nan`
constructor and parsed dates are `Cell.date` with an integer day number.
Python exceptions become the `PyError` sum, and the process-wide
`functools.lru_cache` state is threaded explicitly through the functions
that the source decorates with it.
-/

namespace Pycot

/-- A single cell of a raw or normalized table: a string, a number (the
source casts data columns to float; we carry exact integers), a parsed
date (integer day number, standing for a pandas Timestamp) or the missing
value NaN / NaT. -/
inductive Cell where
  | str (s : String)
  | num (n : Int)
  | date (d : Int)
  | nan
deriving DecidableEq, Repr

/-- A row of a table: an association list from column label to cell. -/
abbrev Row := List (String × Cell)

/-- A pandas DataFrame: ordered column labels plus rows.  The physical
pandas index is kept as an ordinary column (labelled by its index name),
which is faithful for every operation the source performs. -/
structure DataFrame where
  cols : List String
  rows : List Row
deriving DecidableEq, Repr

/-- The Python exceptions raised by the source.  `invalidReportType` is the
package exception `InvalidReportType` (the source formats its message from
the list of permitted report types, which we carry directly);
`valueError`, `typeError`, `keyError` and `unboundLocalError` are the
corresponding builtin exception classes with their message. -/
inductive PyError where
  | invalidReportType (valid : List String)
  | keyError (k : String)
  | typeError (msg : String)
  | valueError (msg : String)
  | unboundLocalError (v : String)
deriving DecidableEq, Repr

/-- First-occurrence lookup in an association list (the behaviour of a
pandas label lookup over non-duplicated labels). -/
def alookup {α β : Type} [DecidableEq α] (k : α) : List (α × β) → Option β
  | [] => none
  | (k₂, v) :: r => if k₂ = k then some v else alookup k r

/-- Replace the value stored at the first occurrence of key `k`, or append
the binding when the key is absent (pandas column assignment `df[k] = v`). -/
def setRowCell (r : Row) (k : String) (v : Cell) : Row :=
  match r with
  | [] => [(k, v)]
  | (k₂, w) :: r => if k₂ = k then (k, v) :: r else (k₂, w) :: setRowCell r k v

@[simp] theorem alookup_nil {α β : Type} [DecidableEq α] (k : α) :
    alookup (β := β) k [] = none := rfl

@[simp] theorem alookup_cons {α β : Type} [DecidableEq α] (k k₂ : α) (v : β)
    (r : List (α × β)) :
    alookup k ((k₂, v) :: r) = if k₂ = k then some v else alookup k r := rfl

@[simp] theorem alookup_setRowCell_self (r : Row) (k : String) (v : Cell) :
    alookup k (setRowCell r k v) = some v := by
  induction r with
  | nil => simp [setRowCell]
  | cons p r ih =>
    obtain ⟨k₂, w⟩ := p
    by_cases h : k₂ = k <;> simp [setRowCell, h, ih]

theorem alookup_setRowCell_ne (r : Row) (k k₂ : String) (v : Cell)
    (h : k₂ ≠ k) : alookup k₂ (setRowCell r k v) = alookup k₂ r := by
  induction r with
  | nil => simp [setRowCell, Ne.symm h]
  | cons p r ih =>
    obtain ⟨k₃, w⟩ := p
    by_cases h₃ : k₃ = k
    · subst h₃
      simp [setRowCell, Ne.symm h]
    · simp [setRowCell, h₃, ih]

/-- The keys of a row, in order. -/
def rowKeys (r : Row) : List String := r.map Prod.fst

theorem alookup_of_keys_eq_cons {r : Row} {k : String} {ks : List String}
    (h : rowKeys r = k :: ks) : ∃ v r₂, r = (k, v) :: r₂ ∧ rowKeys r₂ = ks := by
  cases r with
  | nil => simp [rowKeys] at h
  | cons p r₂ =>
    obtain ⟨k₂, v⟩ := p
    simp [rowKeys] at h
    exact ⟨v, r₂, by simp [h.1], h.2⟩

/-- Monadic map over a list in the `Except` monad, with structural
equations (the behaviour of a Python list comprehension whose body may
raise). -/
def mapME {α β : Type} (f : α → Except PyError β) : List α → Except PyError (List β)
  | [] => .ok []
  | a :: l =>
    match f a with
    | .error e => .error e
    | .ok b =>
      match mapME f l with
      | .error e => .error e
      | .ok l₂ => .ok (b :: l₂)

@[simp] theorem mapME_nil {α β : Type} (f : α → Except PyError β) :
    mapME f [] = .ok [] := rfl

theorem mapME_ok_forall₂ {α β : Type} {f : α → Except PyError β} :
    ∀ {l : List α} {l₂ : List β}, mapME f l = .ok l₂ →
      List.Forall₂ (fun a b => f a = .ok b) l l₂ := by
  intro l
  induction l with
  | nil => intro l₂ h; simp [mapME] at h; simp [← h]
  | cons a l ih =>
    intro l₂ h
    unfold mapME at h
    cases hfa : f a with
    | error e => rw [hfa] at h; simp at h
    | ok b =>
      rw [hfa] at h
      cases hml : mapME f l with
      | error e => rw [hml] at h; simp at h
      | ok l₃ =>
        rw [hml] at h
        simp at h
        subst h
        exact List.Forall₂.cons hfa (ih hml)

theorem mapME_error_mem {α β : Type} {f : α → Except PyError β} :
    ∀ {l : List α} {e : PyError}, mapME f l = .error e →
      ∃ a ∈ l, f a = .error e := by
  intro l
  induction l with
  | nil => intro e h; simp [mapME] at h
  | cons a l ih =>
    intro e h
    unfold mapME at h
    cases hfa : f a with
    | error e₂ =>
      rw [hfa] at h
      simp at h
      exact ⟨a, by simp, by rw [hfa, h]⟩
    | ok b =>
      rw [hfa] at h
      cases hml : mapME f l with
      | error e₂ =>
        rw [hml] at h
        simp at h
        obtain ⟨a₂, ha₂, hfa₂⟩ := ih (hml.trans (congrArg Except.error h))
        exact ⟨a₂, by simp [ha₂], hfa₂⟩
      | ok l₃ =>
        rw [hml] at h
        simp at h

/-! ## Column operations (pandas column read, assignment, arithmetic) -/

/-- Read column `k` of every row (`df[k]` as a Series); a row without the
key contributes NaN, which cannot happen for well-formed frames. -/
def getColD (df : DataFrame) (k : String) : List Cell :=
  df.rows.map (fun r => (alookup k r).getD .nan)

/-- The pandas column assignment `df[k] = vs`: replaces the column when the
label exists, appends it at the end otherwise. -/
def setCol (df : DataFrame) (k : String) (vs : List Cell) : DataFrame :=
  { cols := if k ∈ df.cols then df.cols else df.cols ++ [k],
    rows := List.zipWith (fun r v => setRowCell r k v) df.rows vs }

/-- Element-wise subtraction of two float cells, with NaN propagation
(pandas Series subtraction; post-normalization cells are numbers or NaN). -/
def subCell : Cell → Cell → Cell
  | .num a, .num b => .num (a - b)
  | _, _ => .nan

/-- Multiplication of a float cell by `-1`, with NaN propagation
(pandas `series * -1`). -/
def negCell : Cell → Cell
  | .num a => .num (-a)
  | _ => .nan

/-- The column expression `df[a] - df[b]`. -/
def colSub (df : DataFrame) (a b : String) : List Cell :=
  List.zipWith subCell (getColD df a) (getColD df b)

/-- The column expression `df[a] * -1`. -/
def colNeg (df : DataFrame) (a : String) : List Cell :=
  (getColD df a).map negCell

/-- Reading the listed columns in order raises `KeyError` at the first
missing label (the behaviour of the chain of `df[...]` reads that begins
each derivation block in the source). -/
def requireCols (df : DataFrame) : List String → Except PyError Unit
  | [] => .ok ()
  | k :: ks => if k ∈ df.cols then requireCols df ks else .error (.keyError k)

@[simp] theorem length_getColD (df : DataFrame) (k : String) :
    (getColD df k).length = df.rows.length := by
  simp [getColD]

@[simp] theorem length_colSub (df : DataFrame) (a b : String) :
    (colSub df a b).length = df.rows.length := by
  simp [colSub]

@[simp] theorem length_colNeg (df : DataFrame) (a : String) :
    (colNeg df a).length = df.rows.length := by
  simp [colNeg]

theorem rows_length_setCol (df : DataFrame) (k : String) (vs : List Cell)
    (h : vs.length = df.rows.length) :
    (setCol df k vs).rows.length = df.rows.length := by
  simp [setCol, h]

theorem getColD_setCol_self (df : DataFrame) (k : String) (vs : List Cell)
    (h : vs.length = df.rows.length) :
    getColD (setCol df k vs) k = vs := by
  simp only [getColD, setCol]
  have : ∀ (rs : List Row) (ws : List Cell), ws.length = rs.length →
      (List.zipWith (fun r v => setRowCell r k v) rs ws).map
        (fun r => (alookup k r).getD .nan) = ws := by
    intro rs
    induction rs with
    | nil => intro ws hw; simp at hw; simp [hw]
    | cons r rs ih =>
      intro ws hw
      cases ws with
      | nil => simp at hw
      | cons w ws => simp at hw; simp [ih ws hw]
  exact this df.rows vs h

theorem getColD_setCol_ne (df : DataFrame) (k k₂ : String) (vs : List Cell)
    (h : vs.length = df.rows.length) (hne : k₂ ≠ k) :
    getColD (setCol df k vs) k₂ = getColD df k₂ := by
  simp only [getColD, setCol]
  have : ∀ (rs : List Row) (ws : List Cell), ws.length = rs.length →
      (List.zipWith (fun r v => setRowCell r k v) rs ws).map
        (fun r => (alookup k₂ r).getD .nan) =
      rs.map (fun r => (alookup k₂ r).getD .nan) := by
    intro rs
    induction rs with
    | nil => intro ws hw; simp
    | cons r rs ih =>
      intro ws hw
      cases ws with
      | nil => simp at hw
      | cons w ws =>
        simp at hw
        simp [ih ws hw, alookup_setRowCell_ne _ _ _ _ hne]
  exact this df.rows vs h

theorem mem_cols_setCol (df : DataFrame) (k k₂ : String) (vs : List Cell) :
    k₂ ∈ (setCol df k vs).cols ↔ k₂ = k ∨ k₂ ∈ df.cols := by
  simp only [setCol]
  by_cases h : k ∈ df.cols
  · simp only [if_pos h]
    constructor
    · exact fun h₂ => Or.inr h₂
    · rintro (rfl | h₂)
      · exact h
      · exact h₂
  · simp [if_neg h, or_comm]

theorem requireCols_ok (df : DataFrame) :
    ∀ ks : List String, (∀ k ∈ ks, k ∈ df.cols) → requireCols df ks = .ok () := by
  intro ks
  induction ks with
  | nil => intro _; rfl
  | cons k ks ih =>
    intro h
    have hk : k ∈ df.cols := h k (by simp)
    simp only [requireCols, if_pos hk]
    exact ih (fun k₂ hk₂ => h k₂ (by simp [hk₂]))

theorem requireCols_error_shape (df : DataFrame) :
    ∀ (ks : List String) (e : PyError), requireCols df ks = .error e →
      ∃ k, e = .keyError k := by
  intro ks
  induction ks with
  | nil => intro e h; simp [requireCols] at h
  | cons k ks ih =>
    intro e h
    simp only [requireCols] at h
    by_cases hk : k ∈ df.cols
    · rw [if_pos hk] at h; exact ih e h
    · rw [if_neg hk] at h
      simp at h
      exact ⟨k, h.symm⟩

/-! ## Derivation engine (reports.py lines 210 to 219 and the analogous
blocks of disaggregated_report and financial_report; pycot.py 67 to 70). -/

/-- Derivation block of the legacy family, in source order: the three net
columns are assigned first, then `df["Noncommercial Short"]` is multiplied
by `-1` in place. -/
def deriveLegacy (df : DataFrame) : Except PyError DataFrame :=
  match requireCols df ["Noncommercial Long", "Noncommercial Short",
      "Noncommercial Long, Change", "Noncommercial Short, Change",
      "Noncommercial Long, % of OI", "Noncommercial Short, % of OI"] with
  | .error e => .error e
  | .ok _ =>
    let d₁ := setCol df "Net Position, Large Spec"
      (colSub df "Noncommercial Long" "Noncommercial Short")
    let d₂ := setCol d₁ "Net Change, Large Spec"
      (colSub d₁ "Noncommercial Long, Change" "Noncommercial Short, Change")
    let d₃ := setCol d₂ "Net % of OI, Large Spec"
      (colSub d₂ "Noncommercial Long, % of OI" "Noncommercial Short, % of OI")
    .ok (setCol d₃ "Noncommercial Short" (colNeg d₃ "Noncommercial Short"))

/-- The hypothetical reversed ordering for the legacy family: the short
column is negated first, then the net columns are computed.  Defined only
to compare with `deriveLegacy`. -/
def deriveLegacyRev (df : DataFrame) : Except PyError DataFrame :=
  match requireCols df ["Noncommercial Long", "Noncommercial Short",
      "Noncommercial Long, Change", "Noncommercial Short, Change",
      "Noncommercial Long, % of OI", "Noncommercial Short, % of OI"] with
  | .error e => .error e
  | .ok _ =>
    let d₀ := setCol df "Noncommercial Short" (colNeg df "Noncommercial Short")
    let d₁ := setCol d₀ "Net Position, Large Spec"
      (colSub d₀ "Noncommercial Long" "Noncommercial Short")
    let d₂ := setCol d₁ "Net Change, Large Spec"
      (colSub d₁ "Noncommercial Long, Change" "Noncommercial Short, Change")
    .ok (setCol d₂ "Net % of OI, Large Spec"
      (colSub d₂ "Noncommercial Long, % of OI" "Noncommercial Short, % of OI"))

/-- Derivation block of the disaggregated family, in source order (nets of
the Other Reportable pair, negate its short, then nets of the Managed
Money pair, negate its short). -/
def deriveDisaggregated (df : DataFrame) : Except PyError DataFrame :=
  match requireCols df ["Other Reportable Long", "Other Reportable Short",
      "Other Reportable Long, Change", "Other Reportable Short, Change",
      "Other Reportable Long, % of OI", "Other Reportable Short, % of OI",
      "Managed Money Long", "Managed Money Short",
      "Managed Money Long, Change", "Managed Money Short, Change",
      "Managed Money Long, % of OI", "Managed Money Short, % of OI"] with
  | .error e => .error e
  | .ok _ =>
    let d₁ := setCol df "Net Position Other Rept"
      (colSub df "Other Reportable Long" "Other Reportable Short")
    let d₂ := setCol d₁ "Net Change Other Rept"
      (colSub d₁ "Other Reportable Long, Change" "Other Reportable Short, Change")
    let d₃ := setCol d₂ "Net % of OI Other Rept"
      (colSub d₂ "Other Reportable Long, % of OI" "Other Reportable Short, % of OI")
    let d₄ := setCol d₃ "Other Reportable Short" (colNeg d₃ "Other Reportable Short")
    let d₅ := setCol d₄ "Net Position Managed Money"
      (colSub d₄ "Managed Money Long" "Managed Money Short")
    let d₆ := setCol d₅ "Net Change Managed Money"
      (colSub d₅ "Managed Money Long, Change" "Managed Money Short, Change")
    let d₇ := setCol d₆ "Net % of OI Managed Money"
      (colSub d₆ "Managed Money Long, % of OI" "Managed Money Short, % of OI")
    .ok (setCol d₇ "Managed Money Short" (colNeg d₇ "Managed Money Short"))

/-- The hypothetical reversed ordering for the disaggregated family: both
short columns negated first, then all net columns. -/
def deriveDisaggregatedRev (df : DataFrame) : Except PyError DataFrame :=
  match requireCols df ["Other Reportable Long", "Other Reportable Short",
      "Other Reportable Long, Change", "Other Reportable Short, Change",
      "Other Reportable Long, % of OI", "Other Reportable Short, % of OI",
      "Managed Money Long", "Managed Money Short",
      "Managed Money Long, Change", "Managed Money Short, Change",
      "Managed Money Long, % of OI", "Managed Money Short, % of OI"] with
  | .error e => .error e
  | .ok _ =>
    let d₀ := setCol df "Other Reportable Short" (colNeg df "Other Reportable Short")
    let d₁ := setCol d₀ "Managed Money Short" (colNeg d₀ "Managed Money Short")
    let d₂ := setCol d₁ "Net Position Other Rept"
      (colSub d₁ "Other Reportable Long" "Other Reportable Short")
    let d₃ := setCol d₂ "Net Change Other Rept"
      (colSub d₂ "Other Reportable Long, Change" "Other Reportable Short, Change")
    let d₄ := setCol d₃ "Net % of OI Other Rept"
      (colSub d₃ "Other Reportable Long, % of OI" "Other Reportable Short, % of OI")
    let d₅ := setCol d₄ "Net Position Managed Money"
      (colSub d₄ "Managed Money Long" "Managed Money Short")
    let d₆ := setCol d₅ "Net Change Managed Money"
      (colSub d₅ "Managed Money Long, Change" "Managed Money Short, Change")
    .ok (setCol d₆ "Net % of OI Managed Money"
      (colSub d₆ "Managed Money Long, % of OI" "Managed Money Short, % of OI"))

/-- Derivation block of the financial futures family, in source order. -/
def deriveFinancial (df : DataFrame) : Except PyError DataFrame :=
  match requireCols df ["Asset Manager Long", "Asset Manager Short",
      "Asset Manager Long, Change", "Asset Manager Short, Change",
      "Asset Manager Long, % of OI", "Asset Manager Short, % of OI",
      "Leveraged Money Long", "Leveraged Money Short",
      "Leveraged Money Long, Change", "Leveraged Money Short, Change",
      "Leveraged Money Long, % of OI", "Leveraged Money Short, % of OI"] with
  | .error e => .error e
  | .ok _ =>
    let d₁ := setCol df "Net Position Asset Mgr"
      (colSub df "Asset Manager Long" "Asset Manager Short")
    let d₂ := setCol d₁ "Net Change Asset Mgr"
      (colSub d₁ "Asset Manager Long, Change" "Asset Manager Short, Change")
    let d₃ := setCol d₂ "Net % of OI Asset Mgr"
      (colSub d₂ "Asset Manager Long, % of OI" "Asset Manager Short, % of OI")
    let d₄ := setCol d₃ "Asset Manager Short" (colNeg d₃ "Asset Manager Short")
    let d₅ := setCol d₄ "Net Position Lev Money"
      (colSub d₄ "Leveraged Money Long" "Leveraged Money Short")
    let d₆ := setCol d₅ "Net Change Lev Money"
      (colSub d₅ "Leveraged Money Long, Change" "Leveraged Money Short, Change")
    let d₇ := setCol d₆ "Net % of OI Lev Money"
      (colSub d₆ "Leveraged Money Long, % of OI" "Leveraged Money Short, % of OI")
    .ok (setCol d₇ "Leveraged Money Short" (colNeg d₇ "Leveraged Money Short"))

/-- The hypothetical reversed ordering for the financial futures family. -/
def deriveFinancialRev (df : DataFrame) : Except PyError DataFrame :=
  match requireCols df ["Asset Manager Long", "Asset Manager Short",
      "Asset Manager Long, Change", "Asset Manager Short, Change",
      "Asset Manager Long, % of OI", "Asset Manager Short, % of OI",
      "Leveraged Money Long", "Leveraged Money Short",
      "Leveraged Money Long, Change", "Leveraged Money Short, Change",
      "Leveraged Money Long, % of OI", "Leveraged Money Short, % of OI"] with
  | .error e => .error e
  | .ok _ =>
    let d₀ := setCol df "Asset Manager Short" (colNeg df "Asset Manager Short")
    let d₁ := setCol d₀ "Leveraged Money Short" (colNeg d₀ "Leveraged Money Short")
    let d₂ := setCol d₁ "Net Position Asset Mgr"
      (colSub d₁ "Asset Manager Long" "Asset Manager Short")
    let d₃ := setCol d₂ "Net Change Asset Mgr"
      (colSub d₂ "Asset Manager Long, Change" "Asset Manager Short, Change")
    let d₄ := setCol d₃ "Net % of OI Asset Mgr"
      (colSub d₃ "Asset Manager Long, % of OI" "Asset Manager Short, % of OI")
    let d₅ := setCol d₄ "Net Position Lev Money"
      (colSub d₄ "Leveraged Money Long" "Leveraged Money Short")
    let d₆ := setCol d₅ "Net Change Lev Money"
      (colSub d₅ "Leveraged Money Long, Change" "Leveraged Money Short, Change")
    .ok (setCol d₆ "Net % of OI Lev Money"
      (colSub d₆ "Leveraged Money Long, % of OI" "Leveraged Money Short, % of OI"))

/-! ## Normalizer (format_dataframe: reports.py lines 21 to 36, identical
in pycot.py lines 9 to 25 and utils.py lines 5 to 21). -/

/-- The numeric value of a decimal digit character. -/
def digitVal? (c : Char) : Option Nat :=
  if 48 ≤ c.toNat && c.toNat ≤ 57 then some (c.toNat - 48) else none

/-- Accumulating decimal parse of a digit string. -/
def natOfDigitsAux : List Char → Nat → Option Nat
  | [], acc => some acc
  | c :: cs, acc =>
    match digitVal? c with
    | some d => natOfDigitsAux cs (acc * 10 + d)
    | none => none

/-- Integer-literal parser standing for the pandas numeric and date
parsers (structural recursion, so concrete runs reduce in the kernel;
the integers carried by the model make this faithful). -/
def strToInt? (s : String) : Option Int :=
  match s.data with
  | [] => none
  | '-' :: cs =>
    match cs with
    | [] => none
    | _ => (natOfDigitsAux cs 0).map (fun n => -(n : Int))
  | cs => (natOfDigitsAux cs 0).map (fun n => (n : Int))

/-- The element conversion of `pd.to_datetime` on the Date column: an
already parsed date is kept, NaN becomes NaT (kept as NaN here), a string
is parsed to a day number (numeric text models a parseable date, anything
else raises the pandas ValueError), a number is taken as a timestamp. -/
def parseDateCell : Cell → Except PyError Cell
  | .nan => .ok .nan
  | .date d => .ok (.date d)
  | .num n => .ok (.date n)
  | .str s =>
    match strToInt? s with
    | some d => .ok (.date d)
    | none => .error (.valueError ("could not parse date: " ++ s))

/-- The table-wide `df.replace(".", np.nan)` on one cell. -/
def replaceDot : Cell → Cell
  | .str "." => .nan
  | c => c

/-- The element conversion of `df.astype(float)` on a data cell: numbers
and NaN pass through, numeric text is parsed, anything else raises the
pandas ValueError. -/
def castFloat : Cell → Except PyError Cell
  | .num n => .ok (.num n)
  | .nan => .ok .nan
  | .str s =>
    match strToInt? s with
    | some n => .ok (.num n)
    | none => .error (.valueError ("could not convert string to float: " ++ s))
  | .date _ => .error (.valueError "cannot cast a datetime column to float")

/-- One row of `data.reindex(columns=columns)`: exactly the requested
labels in order, a label absent from the source row is filled with NaN. -/
def reindexRow (columns : List String) (r : Row) : Row :=
  columns.map (fun c => (c, (alookup c r).getD .nan))

/-- `data.reindex(columns=columns)`. -/
def reindex (data : DataFrame) (columns : List String) : DataFrame :=
  { cols := columns, rows := data.rows.map (reindexRow columns) }

/-- `df.rename(columns=dict(zip(columns, names)))`: labels found in the
mapping are replaced, others kept. -/
def renameCols (df : DataFrame) (m : List (String × String)) : DataFrame :=
  { cols := df.cols.map (fun c => (alookup c m).getD c),
    rows := df.rows.map (fun r => r.map (fun p => ((alookup p.1 m).getD p.1, p.2))) }

/-- Apply an element conversion to the cell at key `k` of a row
(`df[k] = f(df[k])` restricted to one row). -/
def applyColCell (k : String) (f : Cell → Except PyError Cell) (r : Row) :
    Except PyError Row :=
  match f ((alookup k r).getD .nan) with
  | .error e => .error e
  | .ok c => .ok (setRowCell r k c)

/-- Whether a label is one of the two index levels set by
`df.set_index(["Date", "Contract Name"])`; `replace` and `astype` act on
the remaining data columns only. -/
def isIndexKey (k : String) : Bool := k = "Date" || k = "Contract Name"

/-- `df.replace(".", np.nan)` on one row (data cells only, the two index
levels are not touched). -/
def replaceDotRow (r : Row) : Row :=
  r.map (fun p => if isIndexKey p.1 then p else (p.1, replaceDot p.2))

/-- `df.astype(float)` on one row (data cells only). -/
def castFloatRow (r : Row) : Except PyError Row :=
  mapME (fun p : String × Cell =>
    if isIndexKey p.1 then .ok p
    else
      match castFloat p.2 with
      | .error e => .error e
      | .ok c => .ok (p.1, c)) r

/-- format_dataframe: project onto the mapped source columns, rename to
the canonical names, parse the Date column, set the (Date, Contract Name)
index, replace the "." sentinel with NaN, cast data columns to float,
then re-flatten to a Date-primary index.  The final frame keeps Date as
its first column, standing for the physical index. -/
def format_dataframe (data : DataFrame) (names columns : List String) :
    Except PyError DataFrame :=
  let df := renameCols (reindex data columns) (columns.zip names)
  if "Date" ∈ df.cols then
    match mapME (applyColCell "Date" parseDateCell) df.rows with
    | .error e => .error e
    | .ok rows₂ =>
      if "Contract Name" ∈ df.cols then
        let rows₃ := rows₂.map replaceDotRow
        match mapME castFloatRow rows₃ with
        | .error e => .error e
        | .ok rows₄ =>
          let finalCols := "Date" :: "Contract Name" ::
            df.cols.filter (fun c => !(isIndexKey c))
          .ok { cols := finalCols, rows := rows₄.map (reindexRow finalCols) }
      else .error (.keyError "Contract Name")
  else .error (.keyError "Date")

/-! ## Sorting (df.sort_index()[::-1]) -/

/-- The Date key of a row (the physical index value). -/
def rowDate (r : Row) : Option Int :=
  match alookup "Date" r with
  | some (.date d) => some d
  | _ => none

/-- `df.sort_index()`: rows sorted ascending by the Date index, rows with
a missing (NaT) index placed last, as pandas does. -/
def sort_index (df : DataFrame) : DataFrame :=
  let dated := df.rows.filter (fun r => (rowDate r).isSome)
  let undated := df.rows.filter (fun r => !(rowDate r).isSome)
  let sorted := List.insertionSort (fun a b => (rowDate a).getD 0 ≤ (rowDate b).getD 0) dated
  { df with rows := sorted ++ undated }

/-- `df.sort_index()[::-1]`: descending Date presentation order. -/
def sortDesc (df : DataFrame) : DataFrame :=
  { df with rows := (sort_index df).rows.reverse }

/-- The parsed Date values of a frame, top to bottom (rows without a
parsed date carry NaT and are skipped). -/
def datesOf (df : DataFrame) : List Int :=
  df.rows.filterMap rowDate

/-! ## Concatenation (pd.concat) -/

/-- Union of column label lists in first-seen order (pandas concat
alignment). -/
def unionCols (ls : List (List String)) : List String :=
  ls.foldl (fun acc cs => acc ++ cs.filter (fun c => !(acc.contains c))) []

/-- `pd.concat(objs)`: None entries are dropped silently; an empty list of
objects raises `ValueError("No objects to concatenate")`; otherwise rows
are concatenated in order, aligned on the union of the columns with NaN
fill. -/
def pdConcat (objs : List (Option DataFrame)) : Except PyError DataFrame :=
  let dfs := objs.filterMap id
  if dfs.isEmpty then .error (.valueError "No objects to concatenate")
  else
    let cols := unionCols (dfs.map DataFrame.cols)
    .ok { cols := cols, rows := dfs.flatMap (fun d => d.rows.map (reindexRow cols)) }

/-! ## Fragment assembler (get_reports: reports.py lines 156 to 170,
extract_report_data.py lines 121 to 130).  The raw network fetch is the
out-of-scope collaborator: `legacy` is the already fetched legacy
fragment and `yearly y` the fragment for year `y`, `none` standing for
the 404 "not found" response that get_reports_by_year converts to None. -/

/-- The years enumerated by `range(2017, date.today().year + 1)`. -/
def yearsRange (current : Int) : List Int :=
  (List.range (current + 1 - 2017).toNat).map (fun i : Nat => 2017 + (i : Int))

/-- get_reports: concatenate the legacy fragment with every yearly
fragment, a 404 year contributing nothing. -/
def get_reports (legacy : DataFrame) (yearly : Int → Option DataFrame)
    (current : Int) : Except PyError DataFrame :=
  pdConcat (some legacy :: (yearsRange current).map yearly)

/-! ## Contract selector (get_contract: reports.py lines 39 to 52,
identical in pycot.py and utils.py). -/

/-- The argument of get_contract: a single contract name or a tuple of
names. -/
inductive ContractFilter where
  | single (s : String)
  | tuple (ts : List String)
deriving DecidableEq, Repr

/-- Python truthiness of the contract_name argument (`if contract_name`):
the empty string and the empty tuple are falsy. -/
def ContractFilter.truthy : ContractFilter → Bool
  | .single s => s != ""
  | .tuple ts => !ts.isEmpty

/-- Whether a row matches a contract name (`df["Contract Name"] == name`
on one row; a missing cell is NaN and never equal to a string). -/
def matchesContract (s : String) (r : Row) : Bool :=
  (alookup "Contract Name" r).getD .nan == .str s

/-- `df[df["Contract Name"] == s]`. -/
def selectRows (df : DataFrame) (s : String) : DataFrame :=
  { cols := df.cols, rows := df.rows.filter (matchesContract s) }

/-- get_contract.  The single-name form is a plain row filter; the tuple
form keeps the names present in the Contract Name column (in input
order), selects each of their row blocks and concatenates them with
`pd.concat`, which raises when every name was absent. -/
def get_contract (df : DataFrame) (f : ContractFilter) : Except PyError DataFrame :=
  if "Contract Name" ∈ df.cols then
    match f with
    | .single s => .ok (selectRows df s)
    | .tuple ts =>
      pdConcat ((ts.filter (fun t => (getColD df "Contract Name").contains (.str t))).map
        (fun t => some (selectRows df t)))
  else .error (.keyError "Contract Name")

/-! ## Report type validation and the per-family operations.

The network fetch and the packaged JSON configuration are the external
collaborators of the spec: an `Env` bundles the already fetched raw
fragments per report type and the column mappings
(`format_columns.json`), each mapping an ordered list of
(canonical name, source column) pairs as produced by `.items()`. -/

def legacyTypes : List String := ["legacy_fut", "legacy_futopt"]

def disaggregatedTypes : List String := ["disaggregated_fut", "disaggregated_futopt"]

def financialTypes : List String :=
  ["traders_in_financial_futures_fut", "traders_in_financial_futures_futopt"]

/-- External collaborators: raw fragments per report type (legacy archive
and per-year archive, `none` being the 404 response) and the three column
mappings. -/
structure Env where
  legacyRaw : String → DataFrame
  yearlyRaw : String → Int → Option DataFrame
  currentYear : Int
  legacyFormat : List (String × String)
  disaggregatedFormat : List (String × String)
  financialFormat : List (String × String)

/-- The pipeline body shared by the three class report properties
(reports.py lines 199 to 221 and the two analogous blocks): assemble the
fragments, fail on an empty table, normalize with the family mapping,
derive, sort ascending and reverse. -/
def classPipeline (env : Env) (fmt : List (String × String))
    (deriveFamily : DataFrame → Except PyError DataFrame) (rt : String) :
    Except PyError DataFrame :=
  match get_reports (env.legacyRaw rt) (env.yearlyRaw rt) env.currentYear with
  | .error e => .error e
  | .ok raw =>
    if raw.rows.isEmpty then
      .error (.valueError ("No data found for the selected report type: " ++ rt))
    else
      match format_dataframe raw (fmt.map Prod.fst) (fmt.map Prod.snd) with
      | .error e => .error e
      | .ok df =>
        match deriveFamily df with
        | .error e => .error e
        | .ok d => .ok (sortDesc d)

/-- The lazily populated per-instance state of a CommitmentsOfTraders
object: the bound report type and one lru_cache slot per report property,
plus a counter of full pipeline executions (each execution performs the
network fetches). -/
structure CotState where
  report_type : Option String
  legacyCache : Option DataFrame
  disaggregatedCache : Option DataFrame
  financialCache : Option DataFrame
  runs : Nat
deriving Repr

/-- The legacy_report property (reports.py lines 172 to 221): return the
per-instance cached table when present; otherwise default the report type
to legacy_futopt, validate it against the two legacy variants, run the
pipeline once and cache the result. -/
def classLegacyReport (env : Env) (s : CotState) :
    Except PyError (DataFrame × CotState) :=
  match s.legacyCache with
  | some df => .ok (df, s)
  | none =>
    let rt := s.report_type.getD "legacy_futopt"
    if rt ∈ legacyTypes then
      match classPipeline env env.legacyFormat deriveLegacy rt with
      | .error e => .error e
      | .ok df => .ok (df, { s with legacyCache := some df, runs := s.runs + 1 })
    else .error (.invalidReportType legacyTypes)

/-- The disaggregated_report property (reports.py lines 223 to 285). -/
def classDisaggregatedReport (env : Env) (s : CotState) :
    Except PyError (DataFrame × CotState) :=
  match s.disaggregatedCache with
  | some df => .ok (df, s)
  | none =>
    let rt := s.report_type.getD "disaggregated_futopt"
    if rt ∈ disaggregatedTypes then
      match classPipeline env env.disaggregatedFormat deriveDisaggregated rt with
      | .error e => .error e
      | .ok df =>
        .ok (df, { s with disaggregatedCache := some df, runs := s.runs + 1 })
    else .error (.invalidReportType disaggregatedTypes)

/-- The financial_report property (reports.py lines 287 to 356). -/
def classFinancialReport (env : Env) (s : CotState) :
    Except PyError (DataFrame × CotState) :=
  match s.financialCache with
  | some df => .ok (df, s)
  | none =>
    let rt := s.report_type.getD "traders_in_financial_futures_futopt"
    if rt ∈ financialTypes then
      match classPipeline env env.financialFormat deriveFinancial rt with
      | .error e => .error e
      | .ok df => .ok (df, { s with financialCache := some df, runs := s.runs + 1 })
    else .error (.invalidReportType financialTypes)

/-- The report method (reports.py lines 396 to 444): require a bound
report type, require contract_name to be a string or tuple (the default
None fails this isinstance check), pick the family property by the bound
report type (an unrecognised type leaves the local `df` unbound) and
filter the cached table with get_contract on every call. -/
def classReport (env : Env) (cn : Option ContractFilter) (s : CotState) :
    Except PyError (DataFrame × CotState) :=
  match s.report_type with
  | none => .error (.valueError "Please select a report type to extract data from")
  | some rt =>
    match cn with
    | none => .error (.typeError "contract_name must be a string or a tuple")
    | some f =>
      if rt ∈ legacyTypes then
        match classLegacyReport env s with
        | .error e => .error e
        | .ok (df, s₂) =>
          match get_contract df f with
          | .error e => .error e
          | .ok r => .ok (r, s₂)
      else if rt ∈ disaggregatedTypes then
        match classDisaggregatedReport env s with
        | .error e => .error e
        | .ok (df, s₂) =>
          match get_contract df f with
          | .error e => .error e
          | .ok r => .ok (r, s₂)
      else if rt ∈ financialTypes then
        match classFinancialReport env s with
        | .error e => .error e
        | .ok (df, s₂) =>
          match get_contract df f with
          | .error e => .error e
          | .ok r => .ok (r, s₂)
      else .error (.unboundLocalError "df")

/-! ## The module-level functions of pycot.py.

`legacy_report`, `disaggregated_report` and `financial_report` there are
decorated with `functools.lru_cache` on the full argument tuple
(report_type, contract_name); the cache is the process-wide state
threaded here as `ModState`.  Exceptions are not cached by lru_cache, so
an error leaves the state unchanged. -/

/-- The process-wide lru_cache of one pycot.py function, plus a counter of
full pipeline executions. -/
structure ModState where
  cache : List ((String × Option ContractFilter) × DataFrame)
  runs : Nat
deriving DecidableEq, Repr

/-- The pipeline body of pycot.py legacy_report after validation (lines
63 to 71): assemble, normalize, derive, sort and reverse — with no
emptiness check. -/
def modPipelineLegacy (env : Env) (rt : String) : Except PyError DataFrame :=
  match get_reports (env.legacyRaw rt) (env.yearlyRaw rt) env.currentYear with
  | .error e => .error e
  | .ok raw =>
    match format_dataframe raw (env.legacyFormat.map Prod.fst)
        (env.legacyFormat.map Prod.snd) with
    | .error e => .error e
    | .ok df =>
      match deriveLegacy df with
      | .error e => .error e
      | .ok d => .ok (sortDesc d)

/-- pycot.py legacy_report (lines 42 to 72): lru_cache lookup on the
(report_type, contract_name) pair, validation against the two legacy
variants, the full pipeline, then `get_contract(df, contract_name) if
contract_name else df` — the filtered result is what gets cached. -/
def legacy_report (env : Env) (rt : String) (cn : Option ContractFilter)
    (s : ModState) : Except PyError (DataFrame × ModState) :=
  match alookup (rt, cn) s.cache with
  | some df => .ok (df, s)
  | none =>
    if rt ∈ legacyTypes then
      match modPipelineLegacy env rt with
      | .error e => .error e
      | .ok df =>
        let filtered : Except PyError DataFrame :=
          match cn with
          | some f => if f.truthy then get_contract df f else .ok df
          | none => .ok df
        match filtered with
        | .error e => .error e
        | .ok res => .ok (res, ⟨((rt, cn), res) :: s.cache, s.runs + 1⟩)
    else .error (.invalidReportType legacyTypes)

/-! ## Well-formedness and general lemmas -/

/-- A well-formed frame: no duplicate column labels and every row carries
exactly the column labels in order (what a pandas DataFrame guarantees). -/
def DataFrame.wf (df : DataFrame) : Prop :=
  df.cols.Nodup ∧ ∀ r ∈ df.rows, rowKeys r = df.cols

theorem reindexRow_self {cols : List String} :
    ∀ {r : Row}, rowKeys r = cols → cols.Nodup → reindexRow cols r = r := by
  induction cols with
  | nil =>
    intro r h _
    cases r with
    | nil => rfl
    | cons p r₂ => simp [rowKeys] at h
  | cons c cols ih =>
    intro r h hnd
    obtain ⟨v, r₂, rfl, hk₂⟩ := alookup_of_keys_eq_cons h
    have hc : c ∉ cols := (List.nodup_cons.mp hnd).1
    have hnd₂ : cols.Nodup := (List.nodup_cons.mp hnd).2
    have hrest : ∀ c₂ ∈ cols, alookup c₂ ((c, v) :: r₂) = alookup c₂ r₂ := by
      intro c₂ hc₂
      have : c ≠ c₂ := fun h₂ => hc (h₂ ▸ hc₂)
      simp [alookup, this]
    calc reindexRow (c :: cols) ((c, v) :: r₂)
        = (c, v) :: reindexRow cols ((c, v) :: r₂) := by
          simp [reindexRow, alookup]
      _ = (c, v) :: reindexRow cols r₂ := by
          congr 1
          simp only [reindexRow]
          exact List.map_congr_left (fun c₂ hc₂ => by rw [hrest c₂ hc₂])
      _ = (c, v) :: r₂ := by rw [ih hk₂ hnd₂]

theorem rowKeys_reindexRow (cols : List String) (r : Row) :
    rowKeys (reindexRow cols r) = cols := by
  induction cols with
  | nil => rfl
  | cons c cols ih => simp only [reindexRow, rowKeys, List.map_cons] at ih ⊢; rw [ih]

theorem unionCols_all_eq {c : List String} :
    ∀ {ls : List (List String)}, (∀ cs ∈ ls, cs = c) → ls ≠ [] →
      unionCols ls = c := by
  have step : ∀ (ls : List (List String)), (∀ cs ∈ ls, cs = c) →
      List.foldl (fun acc cs => acc ++ cs.filter (fun x => !(acc.contains x))) c ls = c := by
    intro ls
    induction ls with
    | nil => intro _; rfl
    | cons cs ls ih =>
      intro h
      have hcs : cs = c := h cs (by simp)
      subst hcs
      have : cs.filter (fun x => !(List.contains cs x)) = [] := by
        apply List.filter_eq_nil_iff.mpr
        intro a ha
        simp [ha]
      simp only [List.foldl_cons, this, List.append_nil]
      exact ih (fun cs₂ h₂ => h cs₂ (by simp [h₂]))
  intro ls h hne
  cases ls with
  | nil => exact absurd rfl hne
  | cons cs ls =>
    have hcs : cs = c := h cs (by simp)
    subst hcs
    simp only [unionCols, List.foldl_cons]
    have : cs.filter (fun x => !(List.contains ([] : List String) x)) = cs := by
      simp
    rw [List.nil_append] at *
    rw [this]
    exact step ls (fun cs₂ h₂ => h cs₂ (by simp [h₂]))

theorem filterMap_id_map_some {α : Type} (l : List α) :
    (l.map some).filterMap id = l := by
  induction l with
  | nil => rfl
  | cons a l ih => simp only [List.map_cons, List.filterMap_cons, id, ih]

theorem rows_map_reindexRow_self {c : List String} {d : DataFrame}
    (hc : d.cols = c) (hwf : d.wf) :
    d.rows.map (reindexRow c) = d.rows := by
  have : d.rows.map (reindexRow c) = d.rows.map id := by
    apply List.map_congr_left
    intro r hr
    exact reindexRow_self (hc ▸ hwf.2 r hr) (hc ▸ hwf.1)
  simpa using this

theorem pdConcat_same_cols {c : List String} {dfs : List DataFrame}
    (h : ∀ d ∈ dfs, d.cols = c ∧ d.wf) (hne : dfs ≠ []) :
    pdConcat (dfs.map some) = .ok ⟨c, dfs.flatMap DataFrame.rows⟩ := by
  have hfm : (dfs.map some).filterMap id = dfs := filterMap_id_map_some dfs
  have hcols : unionCols (dfs.map DataFrame.cols) = c := by
    apply unionCols_all_eq
    · intro cs hcs
      obtain ⟨d, hd, rfl⟩ := List.mem_map.mp hcs
      exact (h d hd).1
    · intro habs
      exact hne (List.map_eq_nil_iff.mp habs)
  have hrows : ∀ ds : List DataFrame, (∀ d ∈ ds, d.cols = c ∧ d.wf) →
      ds.flatMap (fun d => d.rows.map (reindexRow c)) = ds.flatMap DataFrame.rows := by
    intro ds
    induction ds with
    | nil => intro _; rfl
    | cons d ds ih =>
      intro h₂
      simp only [List.flatMap_cons]
      rw [rows_map_reindexRow_self (h₂ d (by simp)).1 (h₂ d (by simp)).2,
        ih (fun d₂ hd₂ => h₂ d₂ (by simp [hd₂]))]
  have hempty : dfs.isEmpty = false := by
    cases dfs with
    | nil => exact absurd rfl hne
    | cons d ds => rfl
  simp only [pdConcat, hfm, hempty, Bool.false_eq_true, if_false, hcols]
  rw [hrows dfs h]

/-! ## Sorting lemmas -/

theorem sorted_filterMap_rowDate {l : List Row}
    (h : l.Pairwise (fun a b => (rowDate a).getD 0 ≤ (rowDate b).getD 0)) :
    (l.filterMap rowDate).Sorted (· ≤ ·) := by
  rw [List.Sorted, List.pairwise_filterMap]
  refine List.Pairwise.imp_of_mem ?_ h
  intro a b ha hb hle x hx y hy
  have hxa : rowDate a = some x := hx
  have hyb : rowDate b = some y := hy
  simpa [hxa, hyb] using hle

/-- Unconditionally, the parsed Date values of `df.sort_index()[::-1]` are
non-increasing top to bottom (rows with NaT are placed first by the
reversal and carry no parsed date). -/
theorem datesOf_sortDesc_sorted (df : DataFrame) :
    (datesOf (sortDesc df)).Sorted (· ≥ ·) := by
  classical
  simp only [datesOf, sortDesc, sort_index]
  rw [List.filterMap_reverse]
  rw [List.Sorted, List.pairwise_reverse]
  rw [List.filterMap_append]
  have hund : (df.rows.filter (fun r => !(rowDate r).isSome)).filterMap rowDate = [] := by
    apply List.filterMap_eq_nil_iff.mpr
    intro r hr
    have := (List.mem_filter.mp hr).2
    simpa [Option.isSome_iff_exists] using this
  rw [hund, List.append_nil]
  have hsorted : ((df.rows.filter (fun r => (rowDate r).isSome)).insertionSort
        (fun a b => (rowDate a).getD 0 ≤ (rowDate b).getD 0)).Pairwise
      (fun a b => (rowDate a).getD 0 ≤ (rowDate b).getD 0) := by
    haveI : IsTotal Row (fun a b => (rowDate a).getD 0 ≤ (rowDate b).getD 0) :=
      ⟨fun a b => Int.le_total _ _⟩
    haveI : IsTrans Row (fun a b => (rowDate a).getD 0 ≤ (rowDate b).getD 0) :=
      ⟨fun a b c => Int.le_trans⟩
    exact List.sorted_insertionSort _ _
  exact sorted_filterMap_rowDate hsorted

/-! ## The fragment assembler: shape lemma -/

/-- get_reports, on fragments sharing one schema: the legacy rows first,
then each year's rows (404 years contributing nothing), nothing dropped
or reordered. -/
theorem filterMap_flatMap_rows (yearly : Int → Option DataFrame) :
    ∀ ys : List Int, (ys.filterMap yearly).flatMap DataFrame.rows =
      ys.flatMap (fun y => match yearly y with | some d => d.rows | none => []) := by
  intro ys
  induction ys with
  | nil => rfl
  | cons y ys ih =>
    simp only [List.filterMap_cons, List.flatMap_cons]
    cases hy : yearly y with
    | none => simpa using ih
    | some d =>
      simp only [List.flatMap_cons]
      rw [ih]

theorem get_reports_rows {legacy : DataFrame} {yearly : Int → Option DataFrame}
    {current : Int} (hwf : legacy.wf)
    (hy : ∀ y d, yearly y = some d → d.cols = legacy.cols ∧ d.wf) :
    get_reports legacy yearly current =
      .ok ⟨legacy.cols, legacy.rows ++ (yearsRange current).flatMap
        (fun y => match yearly y with | some d => d.rows | none => [])⟩ := by
  have key : ∀ ys : List Int,
      pdConcat (some legacy :: ys.map yearly) =
        .ok ⟨legacy.cols, legacy.rows ++ ys.flatMap
          (fun y => match yearly y with | some d => d.rows | none => [])⟩ := by
    intro ys
    have hfm : (some legacy :: ys.map yearly).filterMap id =
        legacy :: ys.filterMap yearly := by
      simp only [List.filterMap_cons, id]
      congr 1
      induction ys with
      | nil => rfl
      | cons y ys ih =>
        simp only [List.map_cons, List.filterMap_cons, id]
        cases yearly y with
        | none => simpa using ih
        | some d => simpa using ih
    have hall : ∀ d ∈ legacy :: ys.filterMap yearly, d.cols = legacy.cols ∧ d.wf := by
      intro d hd
      rcases List.mem_cons.mp hd with rfl | hd₂
      · exact ⟨rfl, hwf⟩
      · obtain ⟨y, _, hyd⟩ := List.mem_filterMap.mp hd₂
        exact hy y d hyd
    have harg : pdConcat (some legacy :: ys.map yearly) =
        pdConcat ((legacy :: ys.filterMap yearly).map some) := by
      simp only [pdConcat, hfm, filterMap_id_map_some]
    rw [harg, pdConcat_same_cols hall (by simp)]
    congr 1
    simp only [List.flatMap_cons]
    rw [filterMap_flatMap_rows]
  exact key (yearsRange current)

/-- Membership in the year enumeration `range(2017, current + 1)`. -/
theorem mem_yearsRange (current y : Int) :
    y ∈ yearsRange current ↔ 2017 ≤ y ∧ y ≤ current := by
  constructor
  · intro h
    obtain ⟨i, hi, rfl⟩ := List.mem_map.mp h
    have := List.mem_range.mp hi
    omega
  · intro h
    apply List.mem_map.mpr
    exact ⟨(y - 2017).toNat, List.mem_range.mpr (by omega), by omega⟩

/-! ## Derivation engine lemmas -/

theorem colSub_setCol_ne {df : DataFrame} {k : String} {vs : List Cell}
    (hlen : vs.length = df.rows.length) {a b : String} (ha : a ≠ k) (hb : b ≠ k) :
    colSub (setCol df k vs) a b = colSub df a b := by
  simp only [colSub, getColD_setCol_ne df k a vs hlen ha,
    getColD_setCol_ne df k b vs hlen hb]

theorem colNeg_setCol_ne {df : DataFrame} {k : String} {vs : List Cell}
    (hlen : vs.length = df.rows.length) {a : String} (ha : a ≠ k) :
    colNeg (setCol df k vs) a = colNeg df a := by
  simp only [colNeg, getColD_setCol_ne df k a vs hlen ha]

theorem deriveLegacy_error_shape {df : DataFrame} {e : PyError}
    (h : deriveLegacy df = .error e) : ∃ k, e = .keyError k := by
  unfold deriveLegacy at h
  cases hrc : requireCols df ["Noncommercial Long", "Noncommercial Short",
      "Noncommercial Long, Change", "Noncommercial Short, Change",
      "Noncommercial Long, % of OI", "Noncommercial Short, % of OI"] with
  | error e₂ =>
    rw [hrc] at h
    simp at h
    exact h ▸ requireCols_error_shape df _ e₂ hrc
  | ok u => rw [hrc] at h; simp at h

/-- The four final columns of the legacy derivation, expressed over the
input frame: every net column is computed from the pre-negation values
and the short column ends negated. -/
theorem deriveLegacy_cols_eq {df d : DataFrame} (h : deriveLegacy df = .ok d) :
    getColD d "Net Position, Large Spec" =
        colSub df "Noncommercial Long" "Noncommercial Short" ∧
    getColD d "Net Change, Large Spec" =
        colSub df "Noncommercial Long, Change" "Noncommercial Short, Change" ∧
    getColD d "Net % of OI, Large Spec" =
        colSub df "Noncommercial Long, % of OI" "Noncommercial Short, % of OI" ∧
    getColD d "Noncommercial Short" = colNeg df "Noncommercial Short" := by
  unfold deriveLegacy at h
  cases hrc : requireCols df ["Noncommercial Long", "Noncommercial Short",
      "Noncommercial Long, Change", "Noncommercial Short, Change",
      "Noncommercial Long, % of OI", "Noncommercial Short, % of OI"] with
  | error e₂ => rw [hrc] at h; simp at h
  | ok u =>
    rw [hrc] at h
    simp only [Except.ok.injEq] at h
    subst h
    set d₁ := setCol df "Net Position, Large Spec"
      (colSub df "Noncommercial Long" "Noncommercial Short") with hd₁
    set d₂ := setCol d₁ "Net Change, Large Spec"
      (colSub d₁ "Noncommercial Long, Change" "Noncommercial Short, Change") with hd₂
    set d₃ := setCol d₂ "Net % of OI, Large Spec"
      (colSub d₂ "Noncommercial Long, % of OI" "Noncommercial Short, % of OI") with hd₃
    have hl₁ : d₁.rows.length = df.rows.length := by
      rw [hd₁]; exact rows_length_setCol _ _ _ (by simp)
    have hl₂ : d₂.rows.length = df.rows.length := by
      rw [hd₂]; rw [rows_length_setCol _ _ _ (by simp [hl₁])]; exact hl₁
    have hl₃ : d₃.rows.length = df.rows.length := by
      rw [hd₃]; rw [rows_length_setCol _ _ _ (by simp [hl₂])]; exact hl₂
    refine ⟨?_, ?_, ?_, ?_⟩
    · rw [getColD_setCol_ne d₃ _ _ _ (by simp [hl₃]) (by decide), hd₃,
        getColD_setCol_ne d₂ _ _ _ (by simp [hl₂]) (by decide), hd₂,
        getColD_setCol_ne d₁ _ _ _ (by simp [hl₁]) (by decide), hd₁,
        getColD_setCol_self df _ _ (by simp)]
    · rw [getColD_setCol_ne d₃ _ _ _ (by simp [hl₃]) (by decide), hd₃,
        getColD_setCol_ne d₂ _ _ _ (by simp [hl₂]) (by decide), hd₂,
        getColD_setCol_self d₁ _ _ (by simp),
        hd₁, colSub_setCol_ne (by simp) (by decide) (by decide)]
    · rw [getColD_setCol_ne d₃ _ _ _ (by simp [hl₃]) (by decide), hd₃,
        getColD_setCol_self d₂ _ _ (by simp),
        hd₂, colSub_setCol_ne (by simp [hl₁]) (by decide) (by decide),
        hd₁, colSub_setCol_ne (by simp) (by decide) (by decide)]
    · rw [getColD_setCol_self d₃ _ _ (by simp), hd₃,
        colNeg_setCol_ne (by simp [hl₂]) (by decide),
        hd₂, colNeg_setCol_ne (by simp [hl₁]) (by decide),
        hd₁, colNeg_setCol_ne (by simp) (by decide)]

/-- The net columns of the hypothetical reversed legacy derivation: the
net position is computed from the already negated short (giving
long + short), while the Change and the % of OI nets read short columns
that are never negated and are therefore unaffected by the reordering. -/
theorem deriveLegacyRev_cols_eq {df d : DataFrame} (h : deriveLegacyRev df = .ok d) :
    getColD d "Net Position, Large Spec" =
        List.zipWith subCell (getColD df "Noncommercial Long")
          ((getColD df "Noncommercial Short").map negCell) ∧
    getColD d "Net Change, Large Spec" =
        colSub df "Noncommercial Long, Change" "Noncommercial Short, Change" ∧
    getColD d "Net % of OI, Large Spec" =
        colSub df "Noncommercial Long, % of OI" "Noncommercial Short, % of OI" := by
  unfold deriveLegacyRev at h
  cases hrc : requireCols df ["Noncommercial Long", "Noncommercial Short",
      "Noncommercial Long, Change", "Noncommercial Short, Change",
      "Noncommercial Long, % of OI", "Noncommercial Short, % of OI"] with
  | error e₂ => rw [hrc] at h; simp at h
  | ok u =>
    rw [hrc] at h
    simp only [Except.ok.injEq] at h
    subst h
    set d₀ := setCol df "Noncommercial Short" (colNeg df "Noncommercial Short") with hd₀
    set d₁ := setCol d₀ "Net Position, Large Spec"
      (colSub d₀ "Noncommercial Long" "Noncommercial Short") with hd₁
    set d₂ := setCol d₁ "Net Change, Large Spec"
      (colSub d₁ "Noncommercial Long, Change" "Noncommercial Short, Change") with hd₂
    have hl₀ : d₀.rows.length = df.rows.length := by
      rw [hd₀]; exact rows_length_setCol _ _ _ (by simp)
    have hl₁ : d₁.rows.length = df.rows.length := by
      rw [hd₁]; rw [rows_length_setCol _ _ _ (by simp [hl₀])]; exact hl₀
    have hl₂ : d₂.rows.length = df.rows.length := by
      rw [hd₂]; rw [rows_length_setCol _ _ _ (by simp [hl₁])]; exact hl₁
    refine ⟨?_, ?_, ?_⟩
    · rw [getColD_setCol_ne d₂ _ _ _ (by simp [hl₂]) (by decide), hd₂,
        getColD_setCol_ne d₁ _ _ _ (by simp [hl₁]) (by decide), hd₁,
        getColD_setCol_self d₀ _ _ (by simp)]
      rw [hd₀]
      simp only [colSub]
      rw [getColD_setCol_ne df _ _ _ (by simp) (by decide),
        getColD_setCol_self df _ _ (by simp)]
      simp only [colNeg]
    · rw [getColD_setCol_ne d₂ _ _ _ (by simp [hl₂]) (by decide), hd₂,
        getColD_setCol_self d₁ _ _ (by simp),
        hd₁, colSub_setCol_ne (by simp [hl₀]) (by decide) (by decide),
        hd₀, colSub_setCol_ne (by simp) (by decide) (by decide)]
    · rw [getColD_setCol_self d₂ _ _ (by simp), hd₂,
        colSub_setCol_ne (by simp [hl₁]) (by decide) (by decide),
        hd₁, colSub_setCol_ne (by simp [hl₀]) (by decide) (by decide),
        hd₀, colSub_setCol_ne (by simp) (by decide) (by decide)]

/-- The final derived and short columns of the disaggregated derivation,
expressed over the input frame. -/
theorem deriveDisaggregated_cols_eq {df d : DataFrame}
    (h : deriveDisaggregated df = .ok d) :
    getColD d "Net Position Other Rept" =
        colSub df "Other Reportable Long" "Other Reportable Short" ∧
    getColD d "Net Change Other Rept" =
        colSub df "Other Reportable Long, Change" "Other Reportable Short, Change" ∧
    getColD d "Net % of OI Other Rept" =
        colSub df "Other Reportable Long, % of OI" "Other Reportable Short, % of OI" ∧
    getColD d "Other Reportable Short" = colNeg df "Other Reportable Short" ∧
    getColD d "Net Position Managed Money" =
        colSub df "Managed Money Long" "Managed Money Short" ∧
    getColD d "Net Change Managed Money" =
        colSub df "Managed Money Long, Change" "Managed Money Short, Change" ∧
    getColD d "Net % of OI Managed Money" =
        colSub df "Managed Money Long, % of OI" "Managed Money Short, % of OI" ∧
    getColD d "Managed Money Short" = colNeg df "Managed Money Short" := by
  unfold deriveDisaggregated at h
  cases hrc : requireCols df ["Other Reportable Long", "Other Reportable Short",
      "Other Reportable Long, Change", "Other Reportable Short, Change",
      "Other Reportable Long, % of OI", "Other Reportable Short, % of OI",
      "Managed Money Long", "Managed Money Short",
      "Managed Money Long, Change", "Managed Money Short, Change",
      "Managed Money Long, % of OI", "Managed Money Short, % of OI"] with
  | error e₂ => rw [hrc] at h; simp at h
  | ok u =>
    rw [hrc] at h
    simp only [Except.ok.injEq] at h
    subst h
    set d₁ := setCol df "Net Position Other Rept"
      (colSub df "Other Reportable Long" "Other Reportable Short") with hd₁
    set d₂ := setCol d₁ "Net Change Other Rept"
      (colSub d₁ "Other Reportable Long, Change" "Other Reportable Short, Change") with hd₂
    set d₃ := setCol d₂ "Net % of OI Other Rept"
      (colSub d₂ "Other Reportable Long, % of OI" "Other Reportable Short, % of OI") with hd₃
    set d₄ := setCol d₃ "Other Reportable Short"
      (colNeg d₃ "Other Reportable Short") with hd₄
    set d₅ := setCol d₄ "Net Position Managed Money"
      (colSub d₄ "Managed Money Long" "Managed Money Short") with hd₅
    set d₆ := setCol d₅ "Net Change Managed Money"
      (colSub d₅ "Managed Money Long, Change" "Managed Money Short, Change") with hd₆
    set d₇ := setCol d₆ "Net % of OI Managed Money"
      (colSub d₆ "Managed Money Long, % of OI" "Managed Money Short, % of OI") with hd₇
    refine ⟨?_, ?_, ?_, ?_, ?_, ?_, ?_, ?_⟩
    · rw [getColD_setCol_ne d₇ _ _ _ (by simp) (by decide), hd₇,
        getColD_setCol_ne d₆ _ _ _ (by simp) (by decide), hd₆,
        getColD_setCol_ne d₅ _ _ _ (by simp) (by decide), hd₅,
        getColD_setCol_ne d₄ _ _ _ (by simp) (by decide), hd₄,
        getColD_setCol_ne d₃ _ _ _ (by simp) (by decide), hd₃,
        getColD_setCol_ne d₂ _ _ _ (by simp) (by decide), hd₂,
        getColD_setCol_ne d₁ _ _ _ (by simp) (by decide), hd₁,
        getColD_setCol_self df _ _ (by simp)]
    · rw [getColD_setCol_ne d₇ _ _ _ (by simp) (by decide), hd₇,
        getColD_setCol_ne d₆ _ _ _ (by simp) (by decide), hd₆,
        getColD_setCol_ne d₅ _ _ _ (by simp) (by decide), hd₅,
        getColD_setCol_ne d₄ _ _ _ (by simp) (by decide), hd₄,
        getColD_setCol_ne d₃ _ _ _ (by simp) (by decide), hd₃,
        getColD_setCol_ne d₂ _ _ _ (by simp) (by decide), hd₂,
        getColD_setCol_self d₁ _ _ (by simp),
        hd₁, colSub_setCol_ne (by simp) (by decide) (by decide)]
    · rw [getColD_setCol_ne d₇ _ _ _ (by simp) (by decide), hd₇,
        getColD_setCol_ne d₆ _ _ _ (by simp) (by decide), hd₆,
        getColD_setCol_ne d₅ _ _ _ (by simp) (by decide), hd₅,
        getColD_setCol_ne d₄ _ _ _ (by simp) (by decide), hd₄,
        getColD_setCol_ne d₃ _ _ _ (by simp) (by decide), hd₃,
        getColD_setCol_self d₂ _ _ (by simp),
        hd₂, colSub_setCol_ne (by simp) (by decide) (by decide),
        hd₁, colSub_setCol_ne (by simp) (by decide) (by decide)]
    · rw [getColD_setCol_ne d₇ _ _ _ (by simp) (by decide), hd₇,
        getColD_setCol_ne d₆ _ _ _ (by simp) (by decide), hd₆,
        getColD_setCol_ne d₅ _ _ _ (by simp) (by decide), hd₅,
        getColD_setCol_ne d₄ _ _ _ (by simp) (by decide), hd₄,
        getColD_setCol_self d₃ _ _ (by simp),
        hd₃, colNeg_setCol_ne (by simp) (by decide),
        hd₂, colNeg_setCol_ne (by simp) (by decide),
        hd₁, colNeg_setCol_ne (by simp) (by decide)]
    · rw [getColD_setCol_ne d₇ _ _ _ (by simp) (by decide), hd₇,
        getColD_setCol_ne d₆ _ _ _ (by simp) (by decide), hd₆,
        getColD_setCol_ne d₅ _ _ _ (by simp) (by decide), hd₅,
        getColD_setCol_self d₄ _ _ (by simp),
        hd₄, colSub_setCol_ne (by simp) (by decide) (by decide),
        hd₃, colSub_setCol_ne (by simp) (by decide) (by decide),
        hd₂, colSub_setCol_ne (by simp) (by decide) (by decide),
        hd₁, colSub_setCol_ne (by simp) (by decide) (by decide)]
    · rw [getColD_setCol_ne d₇ _ _ _ (by simp) (by decide), hd₇,
        getColD_setCol_ne d₆ _ _ _ (by simp) (by decide), hd₆,
        getColD_setCol_self d₅ _ _ (by simp),
        hd₅, colSub_setCol_ne (by simp) (by decide) (by decide),
        hd₄, colSub_setCol_ne (by simp) (by decide) (by decide),
        hd₃, colSub_setCol_ne (by simp) (by decide) (by decide),
        hd₂, colSub_setCol_ne (by simp) (by decide) (by decide),
        hd₁, colSub_setCol_ne (by simp) (by decide) (by decide)]
    · rw [getColD_setCol_ne d₇ _ _ _ (by simp) (by decide), hd₇,
        getColD_setCol_self d₆ _ _ (by simp),
        hd₆, colSub_setCol_ne (by simp) (by decide) (by decide),
        hd₅, colSub_setCol_ne (by simp) (by decide) (by decide),
        hd₄, colSub_setCol_ne (by simp) (by decide) (by decide),
        hd₃, colSub_setCol_ne (by simp) (by decide) (by decide),
        hd₂, colSub_setCol_ne (by simp) (by decide) (by decide),
        hd₁, colSub_setCol_ne (by simp) (by decide) (by decide)]
    · rw [getColD_setCol_self d₇ _ _ (by simp),
        hd₇, colNeg_setCol_ne (by simp) (by decide),
        hd₆, colNeg_setCol_ne (by simp) (by decide),
        hd₅, colNeg_setCol_ne (by simp) (by decide),
        hd₄, colNeg_setCol_ne (by simp) (by decide),
        hd₃, colNeg_setCol_ne (by simp) (by decide),
        hd₂, colNeg_setCol_ne (by simp) (by decide),
        hd₁, colNeg_setCol_ne (by simp) (by decide)]

/-- The final derived and short columns of the financial futures derivation,
expressed over the input frame. -/
theorem deriveFinancial_cols_eq {df d : DataFrame}
    (h : deriveFinancial df = .ok d) :
    getColD d "Net Position Asset Mgr" =
        colSub df "Asset Manager Long" "Asset Manager Short" ∧
    getColD d "Net Change Asset Mgr" =
        colSub df "Asset Manager Long, Change" "Asset Manager Short, Change" ∧
    getColD d "Net % of OI Asset Mgr" =
        colSub df "Asset Manager Long, % of OI" "Asset Manager Short, % of OI" ∧
    getColD d "Asset Manager Short" = colNeg df "Asset Manager Short" ∧
    getColD d "Net Position Lev Money" =
        colSub df "Leveraged Money Long" "Leveraged Money Short" ∧
    getColD d "Net Change Lev Money" =
        colSub df "Leveraged Money Long, Change" "Leveraged Money Short, Change" ∧
    getColD d "Net % of OI Lev Money" =
        colSub df "Leveraged Money Long, % of OI" "Leveraged Money Short, % of OI" ∧
    getColD d "Leveraged Money Short" = colNeg df "Leveraged Money Short" := by
  unfold deriveFinancial at h
  cases hrc : requireCols df ["Asset Manager Long", "Asset Manager Short",
      "Asset Manager Long, Change", "Asset Manager Short, Change",
      "Asset Manager Long, % of OI", "Asset Manager Short, % of OI",
      "Leveraged Money Long", "Leveraged Money Short",
      "Leveraged Money Long, Change", "Leveraged Money Short, Change",
      "Leveraged Money Long, % of OI", "Leveraged Money Short, % of OI"] with
  | error e₂ => rw [hrc] at h; simp at h
  | ok u =>
    rw [hrc] at h
    simp only [Except.ok.injEq] at h
    subst h
    set d₁ := setCol df "Net Position Asset Mgr"
      (colSub df "Asset Manager Long" "Asset Manager Short") with hd₁
    set d₂ := setCol d₁ "Net Change Asset Mgr"
      (colSub d₁ "Asset Manager Long, Change" "Asset Manager Short, Change") with hd₂
    set d₃ := setCol d₂ "Net % of OI Asset Mgr"
      (colSub d₂ "Asset Manager Long, % of OI" "Asset Manager Short, % of OI") with hd₃
    set d₄ := setCol d₃ "Asset Manager Short"
      (colNeg d₃ "Asset Manager Short") with hd₄
    set d₅ := setCol d₄ "Net Position Lev Money"
      (colSub d₄ "Leveraged Money Long" "Leveraged Money Short") with hd₅
    set d₆ := setCol d₅ "Net Change Lev Money"
      (colSub d₅ "Leveraged Money Long, Change" "Leveraged Money Short, Change") with hd₆
    set d₇ := setCol d₆ "Net % of OI Lev Money"
      (colSub d₆ "Leveraged Money Long, % of OI" "Leveraged Money Short, % of OI") with hd₇
    refine ⟨?_, ?_, ?_, ?_, ?_, ?_, ?_, ?_⟩
    · rw [getColD_setCol_ne d₇ _ _ _ (by simp) (by decide), hd₇,
        getColD_setCol_ne d₆ _ _ _ (by simp) (by decide), hd₆,
        getColD_setCol_ne d₅ _ _ _ (by simp) (by decide), hd₅,
        getColD_setCol_ne d₄ _ _ _ (by simp) (by decide), hd₄,
        getColD_setCol_ne d₃ _ _ _ (by simp) (by decide), hd₃,
        getColD_setCol_ne d₂ _ _ _ (by simp) (by decide), hd₂,
        getColD_setCol_ne d₁ _ _ _ (by simp) (by decide), hd₁,
        getColD_setCol_self df _ _ (by simp)]
    · rw [getColD_setCol_ne d₇ _ _ _ (by simp) (by decide), hd₇,
        getColD_setCol_ne d₆ _ _ _ (by simp) (by decide), hd₆,
        getColD_setCol_ne d₅ _ _ _ (by simp) (by decide), hd₅,
        getColD_setCol_ne d₄ _ _ _ (by simp) (by decide), hd₄,
        getColD_setCol_ne d₃ _ _ _ (by simp) (by decide), hd₃,
        getColD_setCol_ne d₂ _ _ _ (by simp) (by decide), hd₂,
        getColD_setCol_self d₁ _ _ (by simp),
        hd₁, colSub_setCol_ne (by simp) (by decide) (by decide)]
    · rw [getColD_setCol_ne d₇ _ _ _ (by simp) (by decide), hd₇,
        getColD_setCol_ne d₆ _ _ _ (by simp) (by decide), hd₆,
        getColD_setCol_ne d₅ _ _ _ (by simp) (by decide), hd₅,
        getColD_setCol_ne d₄ _ _ _ (by simp) (by decide), hd₄,
        getColD_setCol_ne d₃ _ _ _ (by simp) (by decide), hd₃,
        getColD_setCol_self d₂ _ _ (by simp),
        hd₂, colSub_setCol_ne (by simp) (by decide) (by decide),
        hd₁, colSub_setCol_ne (by simp) (by decide) (by decide)]
    · rw [getColD_setCol_ne d₇ _ _ _ (by simp) (by decide), hd₇,
        getColD_setCol_ne d₆ _ _ _ (by simp) (by decide), hd₆,
        getColD_setCol_ne d₅ _ _ _ (by simp) (by decide), hd₅,
        getColD_setCol_ne d₄ _ _ _ (by simp) (by decide), hd₄,
        getColD_setCol_self d₃ _ _ (by simp),
        hd₃, colNeg_setCol_ne (by simp) (by decide),
        hd₂, colNeg_setCol_ne (by simp) (by decide),
        hd₁, colNeg_setCol_ne (by simp) (by decide)]
    · rw [getColD_setCol_ne d₇ _ _ _ (by simp) (by decide), hd₇,
        getColD_setCol_ne d₆ _ _ _ (by simp) (by decide), hd₆,
        getColD_setCol_ne d₅ _ _ _ (by simp) (by decide), hd₅,
        getColD_setCol_self d₄ _ _ (by simp),
        hd₄, colSub_setCol_ne (by simp) (by decide) (by decide),
        hd₃, colSub_setCol_ne (by simp) (by decide) (by decide),
        hd₂, colSub_setCol_ne (by simp) (by decide) (by decide),
        hd₁, colSub_setCol_ne (by simp) (by decide) (by decide)]
    · rw [getColD_setCol_ne d₇ _ _ _ (by simp) (by decide), hd₇,
        getColD_setCol_ne d₆ _ _ _ (by simp) (by decide), hd₆,
        getColD_setCol_self d₅ _ _ (by simp),
        hd₅, colSub_setCol_ne (by simp) (by decide) (by decide),
        hd₄, colSub_setCol_ne (by simp) (by decide) (by decide),
        hd₃, colSub_setCol_ne (by simp) (by decide) (by decide),
        hd₂, colSub_setCol_ne (by simp) (by decide) (by decide),
        hd₁, colSub_setCol_ne (by simp) (by decide) (by decide)]
    · rw [getColD_setCol_ne d₇ _ _ _ (by simp) (by decide), hd₇,
        getColD_setCol_self d₆ _ _ (by simp),
        hd₆, colSub_setCol_ne (by simp) (by decide) (by decide),
        hd₅, colSub_setCol_ne (by simp) (by decide) (by decide),
        hd₄, colSub_setCol_ne (by simp) (by decide) (by decide),
        hd₃, colSub_setCol_ne (by simp) (by decide) (by decide),
        hd₂, colSub_setCol_ne (by simp) (by decide) (by decide),
        hd₁, colSub_setCol_ne (by simp) (by decide) (by decide)]
    · rw [getColD_setCol_self d₇ _ _ (by simp),
        hd₇, colNeg_setCol_ne (by simp) (by decide),
        hd₆, colNeg_setCol_ne (by simp) (by decide),
        hd₅, colNeg_setCol_ne (by simp) (by decide),
        hd₄, colNeg_setCol_ne (by simp) (by decide),
        hd₃, colNeg_setCol_ne (by simp) (by decide),
        hd₂, colNeg_setCol_ne (by simp) (by decide),
        hd₁, colNeg_setCol_ne (by simp) (by decide)]

/-- The net columns of the hypothetical reversed disaggregated
derivation: both net position columns read the already negated shorts,
the Change and % of OI nets are unaffected. -/
theorem deriveDisaggregatedRev_cols_eq {df d : DataFrame}
    (h : deriveDisaggregatedRev df = .ok d) :
    getColD d "Net Position Other Rept" =
        List.zipWith subCell (getColD df "Other Reportable Long")
          ((getColD df "Other Reportable Short").map negCell) ∧
    getColD d "Net Position Managed Money" =
        List.zipWith subCell (getColD df "Managed Money Long")
          ((getColD df "Managed Money Short").map negCell) ∧
    getColD d "Net Change Other Rept" =
        colSub df "Other Reportable Long, Change" "Other Reportable Short, Change" ∧
    getColD d "Net % of OI Other Rept" =
        colSub df "Other Reportable Long, % of OI" "Other Reportable Short, % of OI" ∧
    getColD d "Net Change Managed Money" =
        colSub df "Managed Money Long, Change" "Managed Money Short, Change" ∧
    getColD d "Net % of OI Managed Money" =
        colSub df "Managed Money Long, % of OI" "Managed Money Short, % of OI" := by
  unfold deriveDisaggregatedRev at h
  cases hrc : requireCols df ["Other Reportable Long", "Other Reportable Short",
      "Other Reportable Long, Change", "Other Reportable Short, Change",
      "Other Reportable Long, % of OI", "Other Reportable Short, % of OI",
      "Managed Money Long", "Managed Money Short",
      "Managed Money Long, Change", "Managed Money Short, Change",
      "Managed Money Long, % of OI", "Managed Money Short, % of OI"] with
  | error e₂ => rw [hrc] at h; simp at h
  | ok u =>
    rw [hrc] at h
    simp only [Except.ok.injEq] at h
    subst h
    set d₀ := setCol df "Other Reportable Short"
      (colNeg df "Other Reportable Short") with hd₀
    set d₁ := setCol d₀ "Managed Money Short" (colNeg d₀ "Managed Money Short") with hd₁
    set d₂ := setCol d₁ "Net Position Other Rept"
      (colSub d₁ "Other Reportable Long" "Other Reportable Short") with hd₂
    set d₃ := setCol d₂ "Net Change Other Rept"
      (colSub d₂ "Other Reportable Long, Change" "Other Reportable Short, Change") with hd₃
    set d₄ := setCol d₃ "Net % of OI Other Rept"
      (colSub d₃ "Other Reportable Long, % of OI" "Other Reportable Short, % of OI") with hd₄
    set d₅ := setCol d₄ "Net Position Managed Money"
      (colSub d₄ "Managed Money Long" "Managed Money Short") with hd₅
    set d₆ := setCol d₅ "Net Change Managed Money"
      (colSub d₅ "Managed Money Long, Change" "Managed Money Short, Change") with hd₆
    refine ⟨?_, ?_, ?_, ?_, ?_, ?_⟩
    · rw [getColD_setCol_ne d₆ _ _ _ (by simp) (by decide), hd₆,
        getColD_setCol_ne d₅ _ _ _ (by simp) (by decide), hd₅,
        getColD_setCol_ne d₄ _ _ _ (by simp) (by decide), hd₄,
        getColD_setCol_ne d₃ _ _ _ (by simp) (by decide), hd₃,
        getColD_setCol_ne d₂ _ _ _ (by simp) (by decide), hd₂,
        getColD_setCol_self d₁ _ _ (by simp)]
      rw [hd₁]
      simp only [colSub]
      rw [getColD_setCol_ne d₀ _ _ _ (by simp) (by decide),
        getColD_setCol_ne d₀ _ _ _ (by simp) (by decide), hd₀,
        getColD_setCol_ne df _ _ _ (by simp) (by decide),
        getColD_setCol_self df _ _ (by simp)]
      simp only [colNeg]
    · rw [getColD_setCol_ne d₆ _ _ _ (by simp) (by decide), hd₆,
        getColD_setCol_ne d₅ _ _ _ (by simp) (by decide), hd₅,
        getColD_setCol_self d₄ _ _ (by simp),
        hd₄, colSub_setCol_ne (by simp) (by decide) (by decide),
        hd₃, colSub_setCol_ne (by simp) (by decide) (by decide),
        hd₂, colSub_setCol_ne (by simp) (by decide) (by decide)]
      simp only [colSub]
      rw [hd₁,
        getColD_setCol_ne d₀ _ _ _ (by simp) (by decide),
        getColD_setCol_self d₀ _ _ (by simp), hd₀,
        getColD_setCol_ne df _ _ _ (by simp) (by decide),
        colNeg_setCol_ne (by simp) (by decide)]
      simp only [colNeg]
    · rw [getColD_setCol_ne d₆ _ _ _ (by simp) (by decide), hd₆,
        getColD_setCol_ne d₅ _ _ _ (by simp) (by decide), hd₅,
        getColD_setCol_ne d₄ _ _ _ (by simp) (by decide), hd₄,
        getColD_setCol_ne d₃ _ _ _ (by simp) (by decide), hd₃,
        getColD_setCol_self d₂ _ _ (by simp),
        hd₂, colSub_setCol_ne (by simp) (by decide) (by decide),
        hd₁, colSub_setCol_ne (by simp) (by decide) (by decide),
        hd₀, colSub_setCol_ne (by simp) (by decide) (by decide)]
    · rw [getColD_setCol_ne d₆ _ _ _ (by simp) (by decide), hd₆,
        getColD_setCol_ne d₅ _ _ _ (by simp) (by decide), hd₅,
        getColD_setCol_ne d₄ _ _ _ (by simp) (by decide), hd₄,
        getColD_setCol_self d₃ _ _ (by simp),
        hd₃, colSub_setCol_ne (by simp) (by decide) (by decide),
        hd₂, colSub_setCol_ne (by simp) (by decide) (by decide),
        hd₁, colSub_setCol_ne (by simp) (by decide) (by decide),
        hd₀, colSub_setCol_ne (by simp) (by decide) (by decide)]
    · rw [getColD_setCol_ne d₆ _ _ _ (by simp) (by decide), hd₆,
        getColD_setCol_self d₅ _ _ (by simp),
        hd₅, colSub_setCol_ne (by simp) (by decide) (by decide),
        hd₄, colSub_setCol_ne (by simp) (by decide) (by decide),
        hd₃, colSub_setCol_ne (by simp) (by decide) (by decide),
        hd₂, colSub_setCol_ne (by simp) (by decide) (by decide),
        hd₁, colSub_setCol_ne (by simp) (by decide) (by decide),
        hd₀, colSub_setCol_ne (by simp) (by decide) (by decide)]
    · rw [getColD_setCol_self d₆ _ _ (by simp),
        hd₆, colSub_setCol_ne (by simp) (by decide) (by decide),
        hd₅, colSub_setCol_ne (by simp) (by decide) (by decide),
        hd₄, colSub_setCol_ne (by simp) (by decide) (by decide),
        hd₃, colSub_setCol_ne (by simp) (by decide) (by decide),
        hd₂, colSub_setCol_ne (by simp) (by decide) (by decide),
        hd₁, colSub_setCol_ne (by simp) (by decide) (by decide),
        hd₀, colSub_setCol_ne (by simp) (by decide) (by decide)]

/-- The net columns of the hypothetical reversed financial futures
derivation: both net position columns read the already negated shorts,
the Change and % of OI nets are unaffected. -/
theorem deriveFinancialRev_cols_eq {df d : DataFrame}
    (h : deriveFinancialRev df = .ok d) :
    getColD d "Net Position Asset Mgr" =
        List.zipWith subCell (getColD df "Asset Manager Long")
          ((getColD df "Asset Manager Short").map negCell) ∧
    getColD d "Net Position Lev Money" =
        List.zipWith subCell (getColD df "Leveraged Money Long")
          ((getColD df "Leveraged Money Short").map negCell) ∧
    getColD d "Net Change Asset Mgr" =
        colSub df "Asset Manager Long, Change" "Asset Manager Short, Change" ∧
    getColD d "Net % of OI Asset Mgr" =
        colSub df "Asset Manager Long, % of OI" "Asset Manager Short, % of OI" ∧
    getColD d "Net Change Lev Money" =
        colSub df "Leveraged Money Long, Change" "Leveraged Money Short, Change" ∧
    getColD d "Net % of OI Lev Money" =
        colSub df "Leveraged Money Long, % of OI" "Leveraged Money Short, % of OI" := by
  unfold deriveFinancialRev at h
  cases hrc : requireCols df ["Asset Manager Long", "Asset Manager Short",
      "Asset Manager Long, Change", "Asset Manager Short, Change",
      "Asset Manager Long, % of OI", "Asset Manager Short, % of OI",
      "Leveraged Money Long", "Leveraged Money Short",
      "Leveraged Money Long, Change", "Leveraged Money Short, Change",
      "Leveraged Money Long, % of OI", "Leveraged Money Short, % of OI"] with
  | error e₂ => rw [hrc] at h; simp at h
  | ok u =>
    rw [hrc] at h
    simp only [Except.ok.injEq] at h
    subst h
    set d₀ := setCol df "Asset Manager Short"
      (colNeg df "Asset Manager Short") with hd₀
    set d₁ := setCol d₀ "Leveraged Money Short" (colNeg d₀ "Leveraged Money Short") with hd₁
    set d₂ := setCol d₁ "Net Position Asset Mgr"
      (colSub d₁ "Asset Manager Long" "Asset Manager Short") with hd₂
    set d₃ := setCol d₂ "Net Change Asset Mgr"
      (colSub d₂ "Asset Manager Long, Change" "Asset Manager Short, Change") with hd₃
    set d₄ := setCol d₃ "Net % of OI Asset Mgr"
      (colSub d₃ "Asset Manager Long, % of OI" "Asset Manager Short, % of OI") with hd₄
    set d₅ := setCol d₄ "Net Position Lev Money"
      (colSub d₄ "Leveraged Money Long" "Leveraged Money Short") with hd₅
    set d₆ := setCol d₅ "Net Change Lev Money"
      (colSub d₅ "Leveraged Money Long, Change" "Leveraged Money Short, Change") with hd₆
    refine ⟨?_, ?_, ?_, ?_, ?_, ?_⟩
    · rw [getColD_setCol_ne d₆ _ _ _ (by simp) (by decide), hd₆,
        getColD_setCol_ne d₅ _ _ _ (by simp) (by decide), hd₅,
        getColD_setCol_ne d₄ _ _ _ (by simp) (by decide), hd₄,
        getColD_setCol_ne d₃ _ _ _ (by simp) (by decide), hd₃,
        getColD_setCol_ne d₂ _ _ _ (by simp) (by decide), hd₂,
        getColD_setCol_self d₁ _ _ (by simp)]
      rw [hd₁]
      simp only [colSub]
      rw [getColD_setCol_ne d₀ _ _ _ (by simp) (by decide),
        getColD_setCol_ne d₀ _ _ _ (by simp) (by decide), hd₀,
        getColD_setCol_ne df _ _ _ (by simp) (by decide),
        getColD_setCol_self df _ _ (by simp)]
      simp only [colNeg]
    · rw [getColD_setCol_ne d₆ _ _ _ (by simp) (by decide), hd₆,
        getColD_setCol_ne d₅ _ _ _ (by simp) (by decide), hd₅,
        getColD_setCol_self d₄ _ _ (by simp),
        hd₄, colSub_setCol_ne (by simp) (by decide) (by decide),
        hd₃, colSub_setCol_ne (by simp) (by decide) (by decide),
        hd₂, colSub_setCol_ne (by simp) (by decide) (by decide)]
      simp only [colSub]
      rw [hd₁,
        getColD_setCol_ne d₀ _ _ _ (by simp) (by decide),
        getColD_setCol_self d₀ _ _ (by simp), hd₀,
        getColD_setCol_ne df _ _ _ (by simp) (by decide),
        colNeg_setCol_ne (by simp) (by decide)]
      simp only [colNeg]
    · rw [getColD_setCol_ne d₆ _ _ _ (by simp) (by decide), hd₆,
        getColD_setCol_ne d₅ _ _ _ (by simp) (by decide), hd₅,
        getColD_setCol_ne d₄ _ _ _ (by simp) (by decide), hd₄,
        getColD_setCol_ne d₃ _ _ _ (by simp) (by decide), hd₃,
        getColD_setCol_self d₂ _ _ (by simp),
        hd₂, colSub_setCol_ne (by simp) (by decide) (by decide),
        hd₁, colSub_setCol_ne (by simp) (by decide) (by decide),
        hd₀, colSub_setCol_ne (by simp) (by decide) (by decide)]
    · rw [getColD_setCol_ne d₆ _ _ _ (by simp) (by decide), hd₆,
        getColD_setCol_ne d₅ _ _ _ (by simp) (by decide), hd₅,
        getColD_setCol_ne d₄ _ _ _ (by simp) (by decide), hd₄,
        getColD_setCol_self d₃ _ _ (by simp),
        hd₃, colSub_setCol_ne (by simp) (by decide) (by decide),
        hd₂, colSub_setCol_ne (by simp) (by decide) (by decide),
        hd₁, colSub_setCol_ne (by simp) (by decide) (by decide),
        hd₀, colSub_setCol_ne (by simp) (by decide) (by decide)]
    · rw [getColD_setCol_ne d₆ _ _ _ (by simp) (by decide), hd₆,
        getColD_setCol_self d₅ _ _ (by simp),
        hd₅, colSub_setCol_ne (by simp) (by decide) (by decide),
        hd₄, colSub_setCol_ne (by simp) (by decide) (by decide),
        hd₃, colSub_setCol_ne (by simp) (by decide) (by decide),
        hd₂, colSub_setCol_ne (by simp) (by decide) (by decide),
        hd₁, colSub_setCol_ne (by simp) (by decide) (by decide),
        hd₀, colSub_setCol_ne (by simp) (by decide) (by decide)]
    · rw [getColD_setCol_self d₆ _ _ (by simp),
        hd₆, colSub_setCol_ne (by simp) (by decide) (by decide),
        hd₅, colSub_setCol_ne (by simp) (by decide) (by decide),
        hd₄, colSub_setCol_ne (by simp) (by decide) (by decide),
        hd₃, colSub_setCol_ne (by simp) (by decide) (by decide),
        hd₂, colSub_setCol_ne (by simp) (by decide) (by decide),
        hd₁, colSub_setCol_ne (by simp) (by decide) (by decide),
        hd₀, colSub_setCol_ne (by simp) (by decide) (by decide)]

/-! ## Normalizer lemmas -/

theorem alookup_reindexRow (cols : List String) (r : Row) (k : String) :
    alookup k (reindexRow cols r) =
      if k ∈ cols then some ((alookup k r).getD .nan) else none := by
  induction cols with
  | nil => simp [reindexRow]
  | cons c cols ih =>
    simp only [reindexRow, List.map_cons, alookup_cons] at ih ⊢
    by_cases hc : c = k
    · subst hc
      simp
    · simp only [if_neg hc, ih, List.mem_cons]
      by_cases hk : k ∈ cols
      · simp [hk, Ne.symm hc]
      · simp [hk, Ne.symm hc, hc]

theorem alookup_zip_self {columns names : List String} {c n : String}
    (hmem : (c, n) ∈ columns.zip names) (hnd : columns.Nodup) :
    alookup c (columns.zip names) = some n := by
  induction columns generalizing names with
  | nil => simp at hmem
  | cons c₂ columns ih =>
    cases names with
    | nil => simp at hmem
    | cons n₂ names =>
      simp only [List.zip_cons_cons] at hmem ⊢
      simp only [List.mem_cons] at hmem
      rcases hmem with h | h
      · injection h with h₁ h₂
        subst h₁
        subst h₂
        simp [alookup]
      · have hc₂ : c₂ ≠ c := by
          intro hcc
          subst hcc
          exact (List.nodup_cons.mp hnd).1 (List.of_mem_zip h).1
        simp only [alookup_cons, if_neg hc₂]
        exact ih h (List.nodup_cons.mp hnd).2

theorem map_rename_zip {columns names : List String}
    (hnd : columns.Nodup) (hlen : names.length = columns.length) :
    columns.map (fun c => (alookup c (columns.zip names)).getD c) = names := by
  induction columns generalizing names with
  | nil =>
    cases names with
    | nil => rfl
    | cons n ns => simp at hlen
  | cons c columns ih =>
    cases names with
    | nil => simp at hlen
    | cons n ns =>
      have hcn : c ∉ columns := (List.nodup_cons.mp hnd).1
      have hhead : (alookup c ((c, n) :: columns.zip ns)).getD c = n := by
        simp [alookup]
      have htail : columns.map
          (fun c₂ => (alookup c₂ ((c, n) :: columns.zip ns)).getD c₂) = ns := by
        have hstep : columns.map
            (fun c₂ => (alookup c₂ ((c, n) :: columns.zip ns)).getD c₂) =
            columns.map (fun c₂ => (alookup c₂ (columns.zip ns)).getD c₂) := by
          apply List.map_congr_left
          intro c₂ hc₂
          have : c ≠ c₂ := fun h => hcn (h ▸ hc₂)
          simp [alookup, this]
        rw [hstep, ih (List.nodup_cons.mp hnd).2 (by simpa using hlen)]
      simp only [List.zip_cons_cons, List.map_cons, hhead, htail]

theorem alookup_of_mem_nodup {r : Row} {k : String} {v : Cell}
    (hmem : (k, v) ∈ r) (hnd : (rowKeys r).Nodup) : alookup k r = some v := by
  induction r with
  | nil => simp at hmem
  | cons p r ih =>
    obtain ⟨k₂, v₂⟩ := p
    have hnd₂ : k₂ ∉ rowKeys r ∧ (rowKeys r).Nodup := by
      have : rowKeys ((k₂, v₂) :: r) = k₂ :: rowKeys r := rfl
      rw [this] at hnd
      exact List.nodup_cons.mp hnd
    simp only [List.mem_cons] at hmem
    rcases hmem with h | h
    · injection h with h₁ h₂
      subst h₁
      subst h₂
      simp [alookup]
    · have hk₂ : k₂ ≠ k := by
        intro hkk
        subst hkk
        exact hnd₂.1 (List.mem_map.mpr ⟨(k₂, v), h, rfl⟩)
      simp only [alookup_cons, if_neg hk₂]
      exact ih h hnd₂.2

theorem forall₂_mem_right {α β : Type} {R : α → β → Prop} :
    ∀ {l : List α} {l₂ : List β}, List.Forall₂ R l l₂ → ∀ b ∈ l₂,
      ∃ a ∈ l, R a b := by
  intro l l₂ h
  induction h with
  | nil => intro b hb; simp at hb
  | cons hab _ ih =>
    intro b hb
    rcases List.mem_cons.mp hb with rfl | hb₂
    · exact ⟨_, by simp, hab⟩
    · obtain ⟨a, ha, hr⟩ := ih b hb₂
      exact ⟨a, by simp [ha], hr⟩

theorem alookup_map_value {g : String → Cell → Cell} (k : String) :
    ∀ r : Row, alookup k (r.map (fun p => (p.1, g p.1 p.2))) =
      (alookup k r).map (g k) := by
  intro r
  induction r with
  | nil => simp
  | cons p r ih =>
    obtain ⟨k₂, v⟩ := p
    by_cases h : k₂ = k
    · subst h
      simp [alookup]
    · simp [alookup, h, ih]

/-- castFloatRow preserves keys and sends a NaN cell to a NaN cell. -/
theorem castFloatRow_nan_preserved :
    ∀ {r r₂ : Row}, castFloatRow r = .ok r₂ →
      List.Forall₂ (fun p q : String × Cell =>
        p.1 = q.1 ∧ (p.2 = .nan → q.2 = .nan)) r r₂ := by
  intro r r₂ h
  have h₂ := mapME_ok_forall₂ h
  refine List.Forall₂.imp ?_ h₂
  intro p q hpq
  by_cases hik : isIndexKey p.1
  · simp only [if_pos hik] at hpq
    simp only [Except.ok.injEq] at hpq
    subst hpq
    exact ⟨rfl, fun h => h⟩
  · simp only [if_neg hik] at hpq
    cases hcf : castFloat p.2 with
    | error e => rw [hcf] at hpq; simp at hpq
    | ok c =>
      rw [hcf] at hpq
      simp only [Except.ok.injEq] at hpq
      subst hpq
      refine ⟨rfl, fun hnan => ?_⟩
      rw [hnan] at hcf
      simp only [castFloat] at hcf
      injection hcf with hc
      subst hc
      rfl

theorem alookup_nan_of_forall₂ {k : String} :
    ∀ {r r₂ : Row}, List.Forall₂ (fun p q : String × Cell =>
        p.1 = q.1 ∧ (p.2 = .nan → q.2 = .nan)) r r₂ →
      alookup k r = some .nan → alookup k r₂ = some .nan := by
  intro r r₂ h
  induction h with
  | nil => intro h₂; simp at h₂
  | @cons p q l₁ l₂ hpq hrest ih =>
    obtain ⟨k₁, v₁⟩ := p
    obtain ⟨k₂, v₂⟩ := q
    obtain ⟨hkey, hval⟩ := hpq
    intro h₂
    simp only at hkey hval
    by_cases hk : k₁ = k
    · subst hk
      rw [alookup_cons, if_pos rfl] at h₂
      rw [alookup_cons, if_pos hkey.symm]
      simp only [Option.some.injEq] at h₂ ⊢
      exact hval h₂
    · rw [alookup_cons, if_neg hk] at h₂
      rw [alookup_cons, if_neg (hkey ▸ hk)]
      exact ih h₂

theorem rowKeys_map_rename (f : String → String) (r : Row) :
    rowKeys (r.map (fun p => (f p.1, p.2))) = (rowKeys r).map f := by
  simp [rowKeys, List.map_map, Function.comp]

/-- On success (with a well-formed mapping) the normalized frame has
exactly the canonical names as columns, Date first as the physical index,
Contract Name second, the others in mapping order. -/
theorem format_dataframe_cols {data : DataFrame} {names columns : List String}
    {df : DataFrame} (h : format_dataframe data names columns = .ok df)
    (hnd : columns.Nodup) (hlen : names.length = columns.length) :
    df.cols = "Date" :: "Contract Name" ::
      names.filter (fun c => !(isIndexKey c)) := by
  have hcols : (renameCols (reindex data columns) (columns.zip names)).cols = names := by
    simp only [renameCols, reindex]
    exact map_rename_zip hnd hlen
  simp only [format_dataframe] at h
  rw [hcols] at h
  split at h
  · split at h
    · simp at h
    · split at h
      · split at h
        · simp at h
        · simp only [Except.ok.injEq] at h
          subst h
          rfl
      · simp at h
  · simp at h

theorem parseDateCell_error_shape {c : Cell} {e : PyError}
    (h : parseDateCell c = .error e) :
    ∃ s, e = .valueError ("could not parse date: " ++ s) := by
  cases c with
  | str s =>
    simp only [parseDateCell] at h
    cases hs : strToInt? s with
    | some d => rw [hs] at h; simp at h
    | none =>
      rw [hs] at h
      simp only [Except.error.injEq] at h
      exact ⟨s, h.symm⟩
  | num n => simp [parseDateCell] at h
  | date d => simp [parseDateCell] at h
  | nan => simp [parseDateCell] at h

theorem castFloat_error_shape {c : Cell} {e : PyError}
    (h : castFloat c = .error e) :
    (∃ s, e = .valueError ("could not convert string to float: " ++ s)) ∨
      e = .valueError "cannot cast a datetime column to float" := by
  cases c with
  | str s =>
    simp only [castFloat] at h
    cases hs : strToInt? s with
    | some n => rw [hs] at h; simp at h
    | none =>
      rw [hs] at h
      simp only [Except.error.injEq] at h
      exact Or.inl ⟨s, h.symm⟩
  | num n => simp [castFloat] at h
  | date d =>
    simp only [castFloat, Except.error.injEq] at h
    exact Or.inr h.symm
  | nan => simp [castFloat] at h

theorem applyColCell_error_shape {k : String} {f : Cell → Except PyError Cell}
    {r : Row} {e : PyError} (h : applyColCell k f r = .error e) :
    ∃ c, f c = .error e := by
  simp only [applyColCell] at h
  cases hf : f ((alookup k r).getD .nan) with
  | error e₂ =>
    rw [hf] at h
    simp only [Except.error.injEq] at h
    exact ⟨_, hf.trans (congrArg Except.error h)⟩
  | ok c => rw [hf] at h; simp at h

theorem castFloatRow_error_shape {r : Row} {e : PyError}
    (h : castFloatRow r = .error e) :
    (∃ s, e = .valueError ("could not convert string to float: " ++ s)) ∨
      e = .valueError "cannot cast a datetime column to float" := by
  obtain ⟨p, _, hp⟩ := mapME_error_mem h
  by_cases hik : isIndexKey p.1
  · rw [if_pos hik] at hp; simp at hp
  · rw [if_neg hik] at hp
    cases hcf : castFloat p.2 with
    | error e₂ =>
      rw [hcf] at hp
      simp only [Except.error.injEq] at hp
      exact hp ▸ castFloat_error_shape hcf
    | ok c => rw [hcf] at hp; simp at hp

/-- Every failure of format_dataframe is a KeyError on a missing index
column or a pandas ValueError from date or float parsing. -/
theorem format_dataframe_error_shape {data : DataFrame}
    {names columns : List String} {e : PyError}
    (h : format_dataframe data names columns = .error e) :
    (∃ k, e = .keyError k) ∨
      (∃ s, e = .valueError ("could not parse date: " ++ s)) ∨
      (∃ s, e = .valueError ("could not convert string to float: " ++ s)) ∨
      e = .valueError "cannot cast a datetime column to float" := by
  simp only [format_dataframe] at h
  split at h
  · split at h
    · rename_i hm
      simp only [Except.error.injEq] at h
      subst h
      obtain ⟨r, _, hr⟩ := mapME_error_mem hm
      obtain ⟨c, hc⟩ := applyColCell_error_shape hr
      exact Or.inr (Or.inl (parseDateCell_error_shape hc))
    · split at h
      · split at h
        · rename_i hm
          simp only [Except.error.injEq] at h
          subst h
          obtain ⟨r, _, hr⟩ := mapME_error_mem hm
          rcases castFloatRow_error_shape hr with h₂ | h₂
          · exact Or.inr (Or.inr (Or.inl h₂))
          · exact Or.inr (Or.inr (Or.inr h₂))
        · simp at h
      · simp only [Except.error.injEq] at h
        exact Or.inl ⟨"Contract Name", h.symm⟩
  · simp only [Except.error.injEq] at h
    exact Or.inl ⟨"Date", h.symm⟩

theorem alookup_replaceDotRow (k : String) (r : Row) :
    alookup k (replaceDotRow r) =
      (alookup k r).map (fun v => if isIndexKey k then v else replaceDot v) := by
  induction r with
  | nil => simp [replaceDotRow]
  | cons p r ih =>
    obtain ⟨k₂, v₂⟩ := p
    simp only [replaceDotRow, List.map_cons] at ih ⊢
    by_cases h : k₂ = k
    · subst h
      by_cases hik : isIndexKey k₂
      · rw [if_pos hik]
        simp [alookup, hik]
      · rw [if_neg hik]
        simp [alookup, hik]
    · by_cases hik : isIndexKey k₂
      · rw [if_pos hik]
        simp only [alookup_cons, if_neg h]
        exact ih
      · rw [if_neg hik]
        simp only [alookup_cons, if_neg h]
        exact ih

/-- The Date-parsing pass keeps a NaN cell at any key NaN (a NaN Date is
NaT, other keys are untouched by this pass). -/
theorem applyColCell_parse_nan {r r₂ : Row} {n : String}
    (h : applyColCell "Date" parseDateCell r = .ok r₂)
    (hnan : alookup n r = some Cell.nan) :
    alookup n r₂ = some Cell.nan := by
  simp only [applyColCell] at h
  cases hp : parseDateCell ((alookup "Date" r).getD Cell.nan) with
  | error e => rw [hp] at h; simp at h
  | ok c₃ =>
    rw [hp] at h
    simp only [Except.ok.injEq] at h
    subst h
    by_cases hn : n = "Date"
    · subst hn
      rw [hnan] at hp
      simp only [Option.getD_some, parseDateCell] at hp
      injection hp with hc₃
      rw [alookup_setRowCell_self, ← hc₃]
    · rw [alookup_setRowCell_ne _ _ _ _ hn]
      exact hnan

/-- When a mapped source column is absent from every raw row, the
normalization succeeds anyway and the corresponding canonical column of
the result holds only NaN (the behaviour of `reindex`, which fills a
requested but missing label with NaN). -/
theorem format_dataframe_missing_nan {data : DataFrame}
    {names columns : List String} {df : DataFrame} {c n : String}
    (h : format_dataframe data names columns = .ok df)
    (hndC : columns.Nodup) (hndN : names.Nodup)
    (hlen : names.length = columns.length)
    (hmem : (c, n) ∈ columns.zip names)
    (hmiss : ∀ r ∈ data.rows, alookup c r = none) :
    ∀ x ∈ getColD df n, x = Cell.nan := by
  have hrn : ∀ r ∈ data.rows, alookup n ((reindexRow columns r).map
      (fun p => ((alookup p.1 (columns.zip names)).getD p.1, p.2))) =
        some Cell.nan := by
    intro r hr
    have hkeys : rowKeys ((reindexRow columns r).map
        (fun p => ((alookup p.1 (columns.zip names)).getD p.1, p.2))) = names := by
      rw [rowKeys_map_rename (fun k => (alookup k (columns.zip names)).getD k),
        rowKeys_reindexRow]
      exact map_rename_zip hndC hlen
    have hcmem : (c, Cell.nan) ∈ reindexRow columns r := by
      have hc : c ∈ columns := (List.of_mem_zip hmem).1
      simp only [reindexRow]
      refine List.mem_map.mpr ⟨c, hc, ?_⟩
      rw [hmiss r hr]
      rfl
    have hnmem : (n, Cell.nan) ∈ (reindexRow columns r).map
        (fun p => ((alookup p.1 (columns.zip names)).getD p.1, p.2)) := by
      refine List.mem_map.mpr ⟨(c, Cell.nan), hcmem, ?_⟩
      simp [alookup_zip_self hmem hndC]
    exact alookup_of_mem_nodup hnmem (by rw [hkeys]; exact hndN)
  have hcols : (renameCols (reindex data columns) (columns.zip names)).cols = names := by
    simp only [renameCols, reindex]
    exact map_rename_zip hndC hlen
  simp only [format_dataframe] at h
  rw [hcols] at h
  split at h
  · split at h
    · simp at h
    · rename_i rows₃ hm₁
      split at h
      · split at h
        · simp at h
        · rename_i rows₄ hm₂
          simp only [Except.ok.injEq] at h
          subst h
          intro x hx
          simp only [getColD, List.mem_map] at hx
          obtain ⟨rowF, hrowF, rfl⟩ := hx
          obtain ⟨row₄, hrow₄, rfl⟩ := hrowF
          obtain ⟨row₃mid, hrow₃mid, hcast⟩ :=
            forall₂_mem_right (mapME_ok_forall₂ hm₂) row₄ hrow₄
          obtain ⟨row₃, hrow₃, rfl⟩ := List.mem_map.mp hrow₃mid
          obtain ⟨row₂, hrow₂, happly⟩ :=
            forall₂_mem_right (mapME_ok_forall₂ hm₁) row₃ hrow₃
          simp only [renameCols, reindex, List.map_map, List.mem_map] at hrow₂
          obtain ⟨r, hr, rfl⟩ := hrow₂
          have h₂ : alookup n ((reindexRow columns r).map
              (fun p => ((alookup p.1 (columns.zip names)).getD p.1, p.2))) =
                some Cell.nan := hrn r hr
          have h₃ : alookup n row₃ = some Cell.nan :=
            applyColCell_parse_nan happly h₂
          have h₄ : alookup n (replaceDotRow row₃) = some Cell.nan := by
            rw [alookup_replaceDotRow, h₃]
            by_cases hik : isIndexKey n <;> simp [hik, replaceDot]
          have h₅ : alookup n row₄ = some Cell.nan :=
            alookup_nan_of_forall₂ (castFloatRow_nan_preserved hcast) h₄
          have hnmem : n ∈ "Date" :: "Contract Name" ::
              names.filter (fun c => !(isIndexKey c)) := by
            by_cases hik : isIndexKey n
            · have : n = "Date" ∨ n = "Contract Name" := by
                simpa [isIndexKey] using hik
              rcases this with rfl | rfl <;> simp
            · right; right
              exact List.mem_filter.mpr ⟨(List.of_mem_zip hmem).2, by simp [hik]⟩
          rw [alookup_reindexRow, if_pos hnmem, h₅]
          rfl
      · simp at h
  · simp at h

/-! ## Message disambiguation: the distinct ValueError messages of the
pipeline can never coincide (their first characters differ). -/

theorem append_ne_append_of_head (ca cb : Char) {a b s t : String}
    (hha : a.data.head? = some ca) (hhb : b.data.head? = some cb)
    (hne : ca ≠ cb) : (a ++ s) ≠ (b ++ t) := by
  intro h
  have hd := congrArg String.data h
  rw [String.data_append, String.data_append] at hd
  have hh := congrArg List.head? hd
  rw [List.head?_append, List.head?_append, hha, hhb] at hh
  have hh₂ : some ca = some cb := hh
  simp only [Option.some.injEq] at hh₂
  exact hne hh₂

theorem const_ne_append_of_head (ca cb : Char) {a b t : String}
    (hha : a.data.head? = some ca) (hhb : b.data.head? = some cb)
    (hne : ca ≠ cb) : a ≠ (b ++ t) := by
  intro h
  have hd := congrArg String.data h
  rw [String.data_append] at hd
  have hh := congrArg List.head? hd
  rw [List.head?_append, hha, hhb] at hh
  have hh₂ : some ca = some cb := hh
  simp only [Option.some.injEq] at hh₂
  exact hne hh₂

/-! ## Contract selector lemmas -/

theorem selectRows_rows_sub (df : DataFrame) (s : String) :
    ∀ r ∈ (selectRows df s).rows, r ∈ df.rows := by
  intro r hr
  exact (List.mem_filter.mp hr).1

theorem selectRows_wf {df : DataFrame} (hwf : df.wf) (s : String) :
    (selectRows df s).cols = df.cols ∧ (selectRows df s).wf := by
  refine ⟨rfl, hwf.1, ?_⟩
  intro r hr
  exact hwf.2 r (selectRows_rows_sub df s r hr)

/-- The tuple form of get_contract when at least one name is present:
the concatenation, in input-name order, of each present name's matching
rows (each block in original row order). -/
theorem get_contract_tuple_some {df : DataFrame} {ts : List String}
    (hwf : df.wf) (hcn : "Contract Name" ∈ df.cols)
    (hex : ∃ t ∈ ts, (getColD df "Contract Name").contains (Cell.str t)) :
    get_contract df (.tuple ts) =
      .ok ⟨df.cols, (ts.filter (fun t =>
          (getColD df "Contract Name").contains (Cell.str t))).flatMap
        (fun t => df.rows.filter (matchesContract t))⟩ := by
  simp only [get_contract, if_pos hcn]
  rw [show (ts.filter (fun t => (getColD df "Contract Name").contains (Cell.str t))).map
        (fun t => some (selectRows df t)) =
      ((ts.filter (fun t => (getColD df "Contract Name").contains (Cell.str t))).map
        (selectRows df)).map some by rw [List.map_map]; rfl]
  rw [pdConcat_same_cols ?hall ?hne]
  case hall =>
    intro d hd
    obtain ⟨t, _, rfl⟩ := List.mem_map.mp hd
    exact selectRows_wf hwf t
  case hne =>
    obtain ⟨t, ht, hpres⟩ := hex
    intro habs
    rw [List.map_eq_nil_iff, List.filter_eq_nil_iff] at habs
    exact habs t ht hpres
  congr 1
  rw [List.flatMap_map]
  rfl

/-- The tuple form of get_contract when no name is present: pd.concat
receives an empty list and raises. -/
theorem get_contract_tuple_none {df : DataFrame} {ts : List String}
    (hcn : "Contract Name" ∈ df.cols)
    (hnone : ∀ t ∈ ts, ¬ (getColD df "Contract Name").contains (Cell.str t)) :
    get_contract df (.tuple ts) =
      .error (.valueError "No objects to concatenate") := by
  simp only [get_contract, if_pos hcn]
  have : ts.filter (fun t => (getColD df "Contract Name").contains (Cell.str t)) = [] :=
    List.filter_eq_nil_iff.mpr hnone
  rw [this]
  rfl

theorem get_contract_single {df : DataFrame} (hcn : "Contract Name" ∈ df.cols)
    (s : String) : get_contract df (.single s) = .ok (selectRows df s) := by
  simp [get_contract, if_pos hcn]

/-! ## Cache layer lemmas -/

theorem classLegacyReport_cache_hit {env : Env} {s : CotState} {df : DataFrame}
    (h : s.legacyCache = some df) : classLegacyReport env s = .ok (df, s) := by
  simp [classLegacyReport, h]

theorem classDisaggregatedReport_cache_hit {env : Env} {s : CotState}
    {df : DataFrame} (h : s.disaggregatedCache = some df) :
    classDisaggregatedReport env s = .ok (df, s) := by
  simp [classDisaggregatedReport, h]

theorem classFinancialReport_cache_hit {env : Env} {s : CotState}
    {df : DataFrame} (h : s.financialCache = some df) :
    classFinancialReport env s = .ok (df, s) := by
  simp [classFinancialReport, h]

theorem classLegacyReport_invalid {env : Env} {s : CotState}
    (hc : s.legacyCache = none)
    (hrt : (s.report_type.getD "legacy_futopt") ∉ legacyTypes) :
    classLegacyReport env s = .error (.invalidReportType legacyTypes) := by
  simp [classLegacyReport, hc, hrt]

theorem classDisaggregatedReport_invalid {env : Env} {s : CotState}
    (hc : s.disaggregatedCache = none)
    (hrt : (s.report_type.getD "disaggregated_futopt") ∉ disaggregatedTypes) :
    classDisaggregatedReport env s = .error (.invalidReportType disaggregatedTypes) := by
  simp [classDisaggregatedReport, hc, hrt]

theorem classFinancialReport_invalid {env : Env} {s : CotState}
    (hc : s.financialCache = none)
    (hrt : (s.report_type.getD "traders_in_financial_futures_futopt") ∉ financialTypes) :
    classFinancialReport env s = .error (.invalidReportType financialTypes) := by
  simp [classFinancialReport, hc, hrt]

theorem classLegacyReport_ok_elim {env : Env} {s : CotState} {df : DataFrame}
    {s₂ : CotState} (hc : s.legacyCache = none)
    (h : classLegacyReport env s = .ok (df, s₂)) :
    (s.report_type.getD "legacy_futopt") ∈ legacyTypes ∧
    classPipeline env env.legacyFormat deriveLegacy
        (s.report_type.getD "legacy_futopt") = .ok df ∧
    s₂ = { s with legacyCache := some df, runs := s.runs + 1 } := by
  simp only [classLegacyReport, hc] at h
  split at h
  · rename_i hrt
    split at h
    · simp at h
    · rename_i d hp
      simp only [Except.ok.injEq, Prod.mk.injEq] at h
      exact ⟨hrt, by rw [hp, h.1], h.2.symm ▸ by rw [h.1]⟩
  · simp at h

theorem classPipeline_ok_elim {env : Env} {fmt : List (String × String)}
    {deriveFamily : DataFrame → Except PyError DataFrame} {rt : String}
    {df : DataFrame} (h : classPipeline env fmt deriveFamily rt = .ok df) :
    ∃ raw d₂ d₃,
      get_reports (env.legacyRaw rt) (env.yearlyRaw rt) env.currentYear = .ok raw ∧
      raw.rows.isEmpty = false ∧
      format_dataframe raw (fmt.map Prod.fst) (fmt.map Prod.snd) = .ok d₂ ∧
      deriveFamily d₂ = .ok d₃ ∧ df = sortDesc d₃ := by
  simp only [classPipeline] at h
  split at h
  · simp at h
  · rename_i raw hraw
    split at h
    · simp at h
    · rename_i hemp
      split at h
      · simp at h
      · rename_i d₂ hfmt
        split at h
        · simp at h
        · rename_i d₃ hder
          simp only [Except.ok.injEq] at h
          exact ⟨raw, d₂, d₃, hraw, by simpa using hemp, hfmt, hder, h.symm⟩

/-- The emptiness check of the class pipeline: an empty assembled table
raises the generic builtin ValueError with the "No data found" message. -/
theorem classPipeline_empty {env : Env} {fmt : List (String × String)}
    {deriveFamily : DataFrame → Except PyError DataFrame} {rt : String}
    {raw : DataFrame}
    (hraw : get_reports (env.legacyRaw rt) (env.yearlyRaw rt) env.currentYear = .ok raw)
    (hemp : raw.rows = []) :
    classPipeline env fmt deriveFamily rt =
      .error (.valueError ("No data found for the selected report type: " ++ rt)) := by
  simp [classPipeline, hraw, hemp]

/-- On a non-empty assembled table the "No data found" ValueError cannot
arise: every later failure carries a different message or a different
exception class. -/
theorem classPipeline_nonempty_ne {env : Env} {fmt : List (String × String)}
    {deriveFamily : DataFrame → Except PyError DataFrame} {rt : String}
    {raw : DataFrame}
    (hraw : get_reports (env.legacyRaw rt) (env.yearlyRaw rt) env.currentYear = .ok raw)
    (hne : raw.rows ≠ [])
    (hder : ∀ {d : DataFrame} {e : PyError}, deriveFamily d = .error e →
      ∃ k, e = .keyError k) :
    classPipeline env fmt deriveFamily rt ≠
      .error (.valueError ("No data found for the selected report type: " ++ rt)) := by
  intro h
  simp only [classPipeline, hraw] at h
  rw [if_neg (by simpa using hne)] at h
  split at h
  · rename_i e hfmt
    simp only [Except.error.injEq] at h
    rcases format_dataframe_error_shape hfmt with ⟨k, rfl⟩ | ⟨s, rfl⟩ | ⟨s, rfl⟩ | rfl
    · simp at h
    · simp only [PyError.valueError.injEq] at h
      exact absurd h (append_ne_append_of_head 'c' 'N' rfl rfl (by decide))
    · simp only [PyError.valueError.injEq] at h
      exact absurd h (append_ne_append_of_head 'c' 'N' rfl rfl (by decide))
    · simp only [PyError.valueError.injEq] at h
      exact absurd h (const_ne_append_of_head 'c' 'N' rfl rfl (by decide))
  · rename_i d₂ hfmt
    split at h
    · rename_i e hd
      simp only [Except.error.injEq] at h
      obtain ⟨k, rfl⟩ := hder hd
      simp at h
    · simp at h

theorem legacy_report_cache_hit {env : Env} {rt : String}
    {cn : Option ContractFilter} {s : ModState} {df : DataFrame}
    (h : alookup (rt, cn) s.cache = some df) :
    legacy_report env rt cn s = .ok (df, s) := by
  simp [legacy_report, h]

theorem legacy_report_invalid {env : Env} {rt : String}
    {cn : Option ContractFilter} {s : ModState}
    (hc : alookup (rt, cn) s.cache = none) (hrt : rt ∉ legacyTypes) :
    legacy_report env rt cn s = .error (.invalidReportType legacyTypes) := by
  simp [legacy_report, hc, hrt]

theorem legacy_report_miss_state {env : Env} {rt : String}
    {cn : Option ContractFilter} {s : ModState} {res : DataFrame} {s₂ : ModState}
    (hc : alookup (rt, cn) s.cache = none)
    (h : legacy_report env rt cn s = .ok (res, s₂)) :
    s₂ = ⟨((rt, cn), res) :: s.cache, s.runs + 1⟩ := by
  simp only [legacy_report, hc] at h
  split at h
  · split at h
    · simp at h
    · rename_i df hdf
      split at h
      · simp at h
      · rename_i res₂ hres
        simp only [Except.ok.injEq, Prod.mk.injEq] at h
        rw [← h.2, h.1]
  · simp at h

/-- pycot.py legacy_report with contract_name omitted (None) returns the
full unfiltered derived table and caches it under the (rt, None) key. -/
theorem legacy_report_none_full {env : Env} {rt : String} {s : ModState}
    {df : DataFrame} (hc : alookup (rt, none) s.cache = none)
    (hrt : rt ∈ legacyTypes) (hp : modPipelineLegacy env rt = .ok df) :
    legacy_report env rt none s =
      .ok (df, ⟨((rt, none), df) :: s.cache, s.runs + 1⟩) := by
  simp [legacy_report, hc, hrt, hp]

theorem classReport_none_typeError {env : Env} {s : CotState} {rt : String}
    (h : s.report_type = some rt) :
    classReport env none s =
      .error (.typeError "contract_name must be a string or a tuple") := by
  simp [classReport, h]

theorem classReport_legacy_cached {env : Env} {s : CotState} {rt : String}
    {f : ContractFilter} {df : DataFrame} (hrt : s.report_type = some rt)
    (hmem : rt ∈ legacyTypes) (hc : s.legacyCache = some df) :
    classReport env (some f) s = (get_contract df f).map (fun r => (r, s)) := by
  simp only [classReport, hrt]
  rw [if_pos hmem, classLegacyReport_cache_hit hc]
  cases hgc : get_contract df f <;> simp [hgc, Except.map]

theorem classReport_disaggregated_cached {env : Env} {s : CotState} {rt : String}
    {f : ContractFilter} {df : DataFrame} (hrt : s.report_type = some rt)
    (hmem : rt ∈ disaggregatedTypes) (hc : s.disaggregatedCache = some df) :
    classReport env (some f) s = (get_contract df f).map (fun r => (r, s)) := by
  have hnl : rt ∉ legacyTypes := by
    intro hmem₂
    simp [disaggregatedTypes] at hmem
    simp [legacyTypes] at hmem₂
    rcases hmem with rfl | rfl <;> rcases hmem₂ with h | h <;> simp at h
  simp only [classReport, hrt]
  rw [if_neg hnl, if_pos hmem, classDisaggregatedReport_cache_hit hc]
  cases hgc : get_contract df f <;> simp [hgc, Except.map]

theorem classReport_financial_cached {env : Env} {s : CotState} {rt : String}
    {f : ContractFilter} {df : DataFrame} (hrt : s.report_type = some rt)
    (hmem : rt ∈ financialTypes) (hc : s.financialCache = some df) :
    classReport env (some f) s = (get_contract df f).map (fun r => (r, s)) := by
  have hnl : rt ∉ legacyTypes := by
    intro hmem₂
    simp [financialTypes] at hmem
    simp [legacyTypes] at hmem₂
    rcases hmem with rfl | rfl <;> rcases hmem₂ with h | h <;> simp at h
  have hnd : rt ∉ disaggregatedTypes := by
    intro hmem₂
    simp [financialTypes] at hmem
    simp [disaggregatedTypes] at hmem₂
    rcases hmem with rfl | rfl <;> rcases hmem₂ with h | h <;> simp at h
  simp only [classReport, hrt]
  rw [if_neg hnl, if_neg hnd, if_pos hmem, classFinancialReport_cache_hit hc]
  cases hgc : get_contract df f <;> simp [hgc, Except.map]

/-! ## Pointwise comparison of the two derivation orders -/

/-- At any row whose long and short cells are numbers with a nonzero
short, computing the net from the already negated short yields a
different value (long + short instead of long − short). -/
theorem reversedNet_pointwise_ne {L S : List Cell} {i : Nat} {a b : Int}
    (hL : L[i]? = some (.num a)) (hS : S[i]? = some (.num b)) (hb : b ≠ 0) :
    (List.zipWith subCell L (S.map negCell))[i]? ≠
      (List.zipWith subCell L S)[i]? := by
  rw [List.getElem?_zipWith, List.getElem?_zipWith, List.getElem?_map, hL, hS]
  simp [negCell, subCell]
  omega

theorem deriveLegacy_cols_mem {df d : DataFrame} (h : deriveLegacy df = .ok d) :
    (∀ k ∈ df.cols, k ∈ d.cols) ∧ "Net Position, Large Spec" ∈ d.cols ∧
    "Net Change, Large Spec" ∈ d.cols ∧ "Net % of OI, Large Spec" ∈ d.cols := by
  unfold deriveLegacy at h
  split at h
  · simp at h
  · simp only [Except.ok.injEq] at h
    subst h
    refine ⟨?_, ?_, ?_, ?_⟩ <;>
      simp only [mem_cols_setCol] <;> tauto

theorem mem_format_cols {names : List String} {n : String} (hn : n ∈ names) :
    n ∈ "Date" :: "Contract Name" ::
      names.filter (fun c => !(isIndexKey c)) := by
  by_cases hik : isIndexKey n
  · have : n = "Date" ∨ n = "Contract Name" := by
      simpa [isIndexKey] using hik
    rcases this with rfl | rfl <;> simp
  · right; right
    exact List.mem_filter.mpr ⟨hn, by simp [hik]⟩

theorem cols_sortDesc (df : DataFrame) : (sortDesc df).cols = df.cols := rfl

/-! ## Concrete fixtures and result extractors for the claim witnesses -/

def okFrame (r : Except PyError DataFrame) : DataFrame :=
  match r with
  | .ok d => d
  | .error _ => ⟨[], []⟩

def okTableC (r : Except PyError (DataFrame × CotState)) : DataFrame :=
  match r with
  | .ok p => p.1
  | .error _ => ⟨[], []⟩

def okStateC (r : Except PyError (DataFrame × CotState)) (s : CotState) : CotState :=
  match r with
  | .ok p => p.2
  | .error _ => s

def okTableM (r : Except PyError (DataFrame × ModState)) : DataFrame :=
  match r with
  | .ok p => p.1
  | .error _ => ⟨[], []⟩

def modStateAfter (r : Except PyError (DataFrame × ModState)) (s : ModState) :
    ModState :=
  match r with
  | .ok p => p.2
  | .error _ => s

def runsAfterMod (r : Except PyError (DataFrame × ModState)) : Option Nat :=
  match r with
  | .ok p => some p.2.runs
  | .error _ => none

/-- The state left behind by one report call (exceptions leave the
per-instance caches untouched). -/
def stateAfterClass (r : Except PyError (DataFrame × CotState)) (s : CotState) :
    CotState :=
  match r with
  | .ok p => p.2
  | .error _ => s

/-- A sequence of filtered report queries against one bound instance,
keeping only the evolving instance state. -/
def runQueries (env : Env) (fs : List ContractFilter) (s : CotState) : CotState :=
  fs.foldl (fun st f => stateAfterClass (classReport env (some f) st) st) s

/-- The legacy column mapping used by the concrete fixtures (the real
format_columns.json is external configuration; only the canonical names
read by the derivation are fixed by the code). -/
def legacyFmt0 : List (String × String) :=
  [("Date", "d"), ("Contract Name", "c"),
   ("Noncommercial Long", "l"), ("Noncommercial Short", "s"),
   ("Noncommercial Long, Change", "lc"), ("Noncommercial Short, Change", "sc"),
   ("Noncommercial Long, % of OI", "lo"), ("Noncommercial Short, % of OI", "so")]

def rawLegacy0 : DataFrame :=
  { cols := ["d", "c", "l", "s", "lc", "sc", "lo", "so"],
    rows := [[("d", .str "100"), ("c", .str "AAA"), ("l", .num 10), ("s", .num 3),
              ("lc", .num 1), ("sc", .num 2), ("lo", .num 5), ("so", .num 4)],
             [("d", .str "200"), ("c", .str "BBB"), ("l", .num 7), ("s", .num 9),
              ("lc", .num 3), ("sc", .num 1), ("lo", .num 6), ("so", .num 2)]] }

/-- Fixture environment: a two-row legacy fragment, no yearly data
published yet. -/
def env0 : Env :=
  { legacyRaw := fun _ => rawLegacy0, yearlyRaw := fun _ _ => none,
    currentYear := 2016, legacyFormat := legacyFmt0,
    disaggregatedFormat := [], financialFormat := [] }

/-- Fixture environment whose legacy fragment has no rows at all. -/
def envE : Env :=
  { legacyRaw := fun _ => ⟨["d", "c", "l", "s", "lc", "sc", "lo", "so"], []⟩,
    yearlyRaw := fun _ _ => none, currentYear := 2016,
    legacyFormat := legacyFmt0, disaggregatedFormat := [], financialFormat := [] }

def st0 : CotState := ⟨some "legacy_fut", none, none, none, 0⟩

/-! ## Claim C1 — memoization key of the family operations -/

/-- C1 counterexample.  The claim says the full pipeline runs at most
once per distinct report_type and that a second call differing only in
contract_name reuses the cached table with no recomputation.  In
pycot.py the lru_cache key is the full (report_type, contract_name)
tuple: starting from an empty cache, a call with contract_name None
followed by a call with a contract filter runs the pipeline twice
(the run counter reaches 2, not 1). -/
theorem C1_counterexample :
    runsAfterMod (legacy_report env0 "legacy_fut" none ⟨[], 0⟩) = some 1 ∧
    runsAfterMod (legacy_report env0 "legacy_fut"
      (some (.single "AAA"))
      (modStateAfter (legacy_report env0 "legacy_fut" none ⟨[], 0⟩) ⟨[], 0⟩)) =
      some 2 := by
  exact ⟨rfl, rfl⟩

/-- C1 amended: pycot.py memoizes each family function on the full
(report_type, contract_name) argument pair — a repeat call with the same
pair returns the cached table with no new pipeline run, but a call
differing only in contract_name is a cache miss that runs the pipeline
again and stores a separate entry; the class-based API instead memoizes
the full table per CommitmentsOfTraders instance, and a populated
instance cache is returned as is with no new fetch. -/
theorem C1_amended_theorem :
    (∀ (env : Env) (rt : String) (cn : Option ContractFilter) (s : ModState)
        (df : DataFrame), alookup (rt, cn) s.cache = some df →
      legacy_report env rt cn s = .ok (df, s)) ∧
    (∀ (env : Env) (rt : String) (cn : Option ContractFilter) (s : ModState)
        (res : DataFrame) (s₂ : ModState),
      alookup (rt, cn) s.cache = none → legacy_report env rt cn s = .ok (res, s₂) →
      s₂.runs = s.runs + 1 ∧ alookup (rt, cn) s₂.cache = some res ∧
      ∀ cn₂, cn₂ ≠ cn → alookup (rt, cn₂) s₂.cache = alookup (rt, cn₂) s.cache) ∧
    (∀ (env : Env) (s : CotState) (df : DataFrame),
      s.legacyCache = some df → classLegacyReport env s = .ok (df, s)) := by
  refine ⟨?_, ?_, ?_⟩
  · intro env rt cn s df h
    exact legacy_report_cache_hit h
  · intro env rt cn s res s₂ hc h
    have hstate := legacy_report_miss_state hc h
    subst hstate
    refine ⟨rfl, by simp [alookup], ?_⟩
    intro cn₂ hne
    have : ((rt, cn) : String × Option ContractFilter) ≠ (rt, cn₂) := by
      intro h₂
      exact hne (congrArg Prod.snd h₂).symm
    simp only [alookup_cons, if_neg this]
  · intro env s df h
    exact classLegacyReport_cache_hit h

/-- C1 amended, witness: the cache-miss clause at a concrete fresh state
(the run counter advances and the result is stored under the exact
(report_type, contract_name) key) and the class cache-hit clause at a
concrete populated instance. -/
theorem C1_amended_witness :
    (modStateAfter (legacy_report env0 "legacy_fut" none ⟨[], 0⟩) ⟨[], 0⟩).runs =
        0 + 1 ∧
    alookup ("legacy_fut", (none : Option ContractFilter))
        (modStateAfter (legacy_report env0 "legacy_fut" none ⟨[], 0⟩) ⟨[], 0⟩).cache =
      some (okTableM (legacy_report env0 "legacy_fut" none ⟨[], 0⟩)) ∧
    classLegacyReport env0 ⟨some "legacy_fut", some ⟨[], []⟩, none, none, 0⟩ =
      .ok (⟨[], []⟩, ⟨some "legacy_fut", some ⟨[], []⟩, none, none, 0⟩) := by
  have h₂ := C1_amended_theorem.2.1 env0 "legacy_fut" none ⟨[], 0⟩
    (okTableM (legacy_report env0 "legacy_fut" none ⟨[], 0⟩))
    (modStateAfter (legacy_report env0 "legacy_fut" none ⟨[], 0⟩) ⟨[], 0⟩)
    rfl (by rfl)
  exact ⟨h₂.1, h₂.2.1,
    C1_amended_theorem.2.2 env0 ⟨some "legacy_fut", some ⟨[], []⟩, none, none, 0⟩
      ⟨[], []⟩ rfl⟩

/-! ## Claim C2 — derivation order and sign conventions -/

/-- One-row fixture for the legacy derivation: long 10, short 3, change
pair 1 and 2, percent pair 5 and 4. -/
def dfC2 : DataFrame :=
  ⟨["Noncommercial Long", "Noncommercial Short", "Noncommercial Long, Change",
    "Noncommercial Short, Change", "Noncommercial Long, % of OI",
    "Noncommercial Short, % of OI"],
   [[("Noncommercial Long", .num 10), ("Noncommercial Short", .num 3),
     ("Noncommercial Long, Change", .num 1), ("Noncommercial Short, Change", .num 2),
     ("Noncommercial Long, % of OI", .num 5),
     ("Noncommercial Short, % of OI", .num 4)]]⟩

/-- One-row fixture for the disaggregated derivation. -/
def dfD2 : DataFrame :=
  ⟨["Other Reportable Long", "Other Reportable Short",
    "Other Reportable Long, Change", "Other Reportable Short, Change",
    "Other Reportable Long, % of OI", "Other Reportable Short, % of OI",
    "Managed Money Long", "Managed Money Short",
    "Managed Money Long, Change", "Managed Money Short, Change",
    "Managed Money Long, % of OI", "Managed Money Short, % of OI"],
   [[("Other Reportable Long", .num 10), ("Other Reportable Short", .num 3),
     ("Other Reportable Long, Change", .num 1), ("Other Reportable Short, Change", .num 2),
     ("Other Reportable Long, % of OI", .num 5), ("Other Reportable Short, % of OI", .num 4),
     ("Managed Money Long", .num 20), ("Managed Money Short", .num 6),
     ("Managed Money Long, Change", .num 2), ("Managed Money Short, Change", .num 3),
     ("Managed Money Long, % of OI", .num 8), ("Managed Money Short, % of OI", .num 7)]]⟩

/-- One-row fixture for the financial futures derivation. -/
def dfF2 : DataFrame :=
  ⟨["Asset Manager Long", "Asset Manager Short",
    "Asset Manager Long, Change", "Asset Manager Short, Change",
    "Asset Manager Long, % of OI", "Asset Manager Short, % of OI",
    "Leveraged Money Long", "Leveraged Money Short",
    "Leveraged Money Long, Change", "Leveraged Money Short, Change",
    "Leveraged Money Long, % of OI", "Leveraged Money Short, % of OI"],
   [[("Asset Manager Long", .num 10), ("Asset Manager Short", .num 3),
     ("Asset Manager Long, Change", .num 1), ("Asset Manager Short, Change", .num 2),
     ("Asset Manager Long, % of OI", .num 5), ("Asset Manager Short, % of OI", .num 4),
     ("Leveraged Money Long", .num 20), ("Leveraged Money Short", .num 6),
     ("Leveraged Money Long, Change", .num 2), ("Leveraged Money Short, Change", .num 3),
     ("Leveraged Money Long, % of OI", .num 8), ("Leveraged Money Short, % of OI", .num 7)]]⟩

/-- C2 counterexample.  The claim ends "computing in the reverse order
would change the sign of every net column".  On a row with long 10 and
short 3 the normal order gives net position 7 and the reversed order 13:
the value changes but the sign does not; and the net change column is
identical under both orders, because its short input (the Change short
column) is never negated at all. -/
theorem C2_counterexample :
    Except.map (fun d => getColD d "Net Position, Large Spec") (deriveLegacy dfC2) =
      .ok [Cell.num 7] ∧
    Except.map (fun d => getColD d "Net Position, Large Spec") (deriveLegacyRev dfC2) =
      .ok [Cell.num 13] ∧
    Except.map (fun d => getColD d "Net Change, Large Spec") (deriveLegacy dfC2) =
      Except.map (fun d => getColD d "Net Change, Large Spec") (deriveLegacyRev dfC2) ∧
    (0 : Int) < 7 ∧ (0 : Int) < 13 := by
  exact ⟨rfl, rfl, rfl, by decide, by decide⟩

/-- C2 amended: in every family's derivation each net column equals long
minus short computed from the pre-negation short values, and the
enumerated short columns end multiplied by −1; computing in the reverse
order (negating the enumerated shorts first) would change the VALUE of
every net position column on each row whose short cell is a nonzero
number — it becomes long + short, differing by 2·short, though not in
general with opposite sign — while the net change and net % of OI
columns would be unchanged, since their short inputs are never
negated. -/
theorem C2_amended_theorem :
    (∀ df d : DataFrame, deriveLegacy df = .ok d →
      getColD d "Net Position, Large Spec" =
          colSub df "Noncommercial Long" "Noncommercial Short" ∧
      getColD d "Net Change, Large Spec" =
          colSub df "Noncommercial Long, Change" "Noncommercial Short, Change" ∧
      getColD d "Net % of OI, Large Spec" =
          colSub df "Noncommercial Long, % of OI" "Noncommercial Short, % of OI" ∧
      getColD d "Noncommercial Short" = colNeg df "Noncommercial Short") ∧
    (∀ df d : DataFrame, deriveDisaggregated df = .ok d →
      getColD d "Net Position Other Rept" =
          colSub df "Other Reportable Long" "Other Reportable Short" ∧
      getColD d "Other Reportable Short" = colNeg df "Other Reportable Short" ∧
      getColD d "Net Position Managed Money" =
          colSub df "Managed Money Long" "Managed Money Short" ∧
      getColD d "Managed Money Short" = colNeg df "Managed Money Short") ∧
    (∀ df d : DataFrame, deriveFinancial df = .ok d →
      getColD d "Net Position Asset Mgr" =
          colSub df "Asset Manager Long" "Asset Manager Short" ∧
      getColD d "Asset Manager Short" = colNeg df "Asset Manager Short" ∧
      getColD d "Net Position Lev Money" =
          colSub df "Leveraged Money Long" "Leveraged Money Short" ∧
      getColD d "Leveraged Money Short" = colNeg df "Leveraged Money Short") ∧
    (∀ df d : DataFrame, deriveLegacyRev df = .ok d →
      getColD d "Net Position, Large Spec" =
          List.zipWith subCell (getColD df "Noncommercial Long")
            ((getColD df "Noncommercial Short").map negCell) ∧
      getColD d "Net Change, Large Spec" =
          colSub df "Noncommercial Long, Change" "Noncommercial Short, Change" ∧
      getColD d "Net % of OI, Large Spec" =
          colSub df "Noncommercial Long, % of OI" "Noncommercial Short, % of OI") ∧
    (∀ df d : DataFrame, deriveDisaggregatedRev df = .ok d →
      getColD d "Net Position Other Rept" =
          List.zipWith subCell (getColD df "Other Reportable Long")
            ((getColD df "Other Reportable Short").map negCell) ∧
      getColD d "Net Position Managed Money" =
          List.zipWith subCell (getColD df "Managed Money Long")
            ((getColD df "Managed Money Short").map negCell) ∧
      getColD d "Net Change Other Rept" =
          colSub df "Other Reportable Long, Change" "Other Reportable Short, Change" ∧
      getColD d "Net Change Managed Money" =
          colSub df "Managed Money Long, Change" "Managed Money Short, Change") ∧
    (∀ df d : DataFrame, deriveFinancialRev df = .ok d →
      getColD d "Net Position Asset Mgr" =
          List.zipWith subCell (getColD df "Asset Manager Long")
            ((getColD df "Asset Manager Short").map negCell) ∧
      getColD d "Net Position Lev Money" =
          List.zipWith subCell (getColD df "Leveraged Money Long")
            ((getColD df "Leveraged Money Short").map negCell) ∧
      getColD d "Net Change Asset Mgr" =
          colSub df "Asset Manager Long, Change" "Asset Manager Short, Change" ∧
      getColD d "Net Change Lev Money" =
          colSub df "Leveraged Money Long, Change" "Leveraged Money Short, Change") ∧
    (∀ (L S : List Cell) (i : Nat) (a b : Int),
      L[i]? = some (.num a) → S[i]? = some (.num b) → b ≠ 0 →
      (List.zipWith subCell L (S.map negCell))[i]? ≠
        (List.zipWith subCell L S)[i]?) := by
  refine ⟨?_, ?_, ?_, ?_, ?_, ?_, ?_⟩
  · intro df d h
    exact deriveLegacy_cols_eq h
  · intro df d h
    obtain ⟨h₁, _, _, h₄, h₅, _, _, h₈⟩ := deriveDisaggregated_cols_eq h
    exact ⟨h₁, h₄, h₅, h₈⟩
  · intro df d h
    obtain ⟨h₁, _, _, h₄, h₅, _, _, h₈⟩ := deriveFinancial_cols_eq h
    exact ⟨h₁, h₄, h₅, h₈⟩
  · intro df d h
    exact deriveLegacyRev_cols_eq h
  · intro df d h
    obtain ⟨h₁, h₂, h₃, _, h₅, _⟩ := deriveDisaggregatedRev_cols_eq h
    exact ⟨h₁, h₂, h₃, h₅⟩
  · intro df d h
    obtain ⟨h₁, h₂, h₃, _, h₅, _⟩ := deriveFinancialRev_cols_eq h
    exact ⟨h₁, h₂, h₃, h₅⟩
  · intro L S i a b hL hS hb
    exact reversedNet_pointwise_ne hL hS hb

/-- C2 amended, witness: all seven clauses instantiated on the one-row
fixtures (the derivations evaluate by rfl, the pointwise clause at index
0 of the fixture columns). -/
theorem C2_amended_witness :
    getColD (okFrame (deriveLegacy dfC2)) "Net Position, Large Spec" =
        colSub dfC2 "Noncommercial Long" "Noncommercial Short" ∧
    getColD (okFrame (deriveDisaggregated dfD2)) "Managed Money Short" =
        colNeg dfD2 "Managed Money Short" ∧
    getColD (okFrame (deriveFinancial dfF2)) "Asset Manager Short" =
        colNeg dfF2 "Asset Manager Short" ∧
    getColD (okFrame (deriveLegacyRev dfC2)) "Net Position, Large Spec" =
        List.zipWith subCell (getColD dfC2 "Noncommercial Long")
          ((getColD dfC2 "Noncommercial Short").map negCell) ∧
    getColD (okFrame (deriveDisaggregatedRev dfD2)) "Net Change Other Rept" =
        colSub dfD2 "Other Reportable Long, Change" "Other Reportable Short, Change" ∧
    getColD (okFrame (deriveFinancialRev dfF2)) "Net Change Lev Money" =
        colSub dfF2 "Leveraged Money Long, Change" "Leveraged Money Short, Change" ∧
    (List.zipWith subCell (getColD dfC2 "Noncommercial Long")
        ((getColD dfC2 "Noncommercial Short").map negCell))[0]? ≠
      (List.zipWith subCell (getColD dfC2 "Noncommercial Long")
        (getColD dfC2 "Noncommercial Short"))[0]? := by
  refine ⟨(C2_amended_theorem.1 dfC2 _ (by rfl)).1,
    (C2_amended_theorem.2.1 dfD2 _ (by rfl)).2.2.2,
    (C2_amended_theorem.2.2.1 dfF2 _ (by rfl)).2.1,
    (C2_amended_theorem.2.2.2.1 dfC2 _ (by rfl)).1,
    (C2_amended_theorem.2.2.2.2.1 dfD2 _ (by rfl)).2.2.1,
    (C2_amended_theorem.2.2.2.2.2.1 dfF2 _ (by rfl)).2.2.2,
    C2_amended_theorem.2.2.2.2.2.2 (getColD dfC2 "Noncommercial Long")
      (getColD dfC2 "Noncommercial Short") 0 10 3 (by rfl) (by rfl) (by decide)⟩

/-! ## Claim C3 — missing mapped source columns in normalize -/

def rawC3 : DataFrame := ⟨["D", "C"], [[("D", .str "5"), ("C", .str "AAA")]]⟩

def namesC3 : List String := ["Date", "Contract Name", "X"]

def columnsC3 : List String := ["D", "C", "XS"]

/-- C3 counterexample.  The claim says normalize fails with a
SchemaMismatch error whenever the raw table is missing a mapped source
column.  The source uses `data.reindex(columns=columns)`, which fills a
missing label with NaN and proceeds: on a raw table without the mapped
column "XS", format_dataframe succeeds and returns the canonical column
"X" filled with NaN. -/
theorem C3_counterexample :
    format_dataframe rawC3 namesC3 columnsC3 =
      .ok ⟨["Date", "Contract Name", "X"],
        [[("Date", .date 5), ("Contract Name", .str "AAA"), ("X", .nan)]]⟩ ∧
    "XS" ∉ rawC3.cols := by
  exact ⟨rfl, by decide⟩

/-- C3 amended: normalize first projects onto exactly the source columns
named in the mapping, in mapping order (reindex); renaming then yields
the canonical names, Date becoming the physical index and Contract Name
the first regular column.  A mapped source column missing from the raw
table is NOT an error: reindex fills it with NaN and the run proceeds,
so the corresponding canonical column of a successful result holds only
NaN (there is no SchemaMismatch anywhere in the code). -/
theorem C3_amended_theorem :
    (∀ (data : DataFrame) (columns : List String),
      (reindex data columns).cols = columns) ∧
    (∀ (data : DataFrame) (names columns : List String) (df : DataFrame),
      format_dataframe data names columns = .ok df →
      columns.Nodup → names.length = columns.length →
      df.cols = "Date" :: "Contract Name" ::
        names.filter (fun c => !(isIndexKey c))) ∧
    (∀ (data : DataFrame) (names columns : List String) (df : DataFrame)
        (c n : String),
      format_dataframe data names columns = .ok df →
      columns.Nodup → names.Nodup → names.length = columns.length →
      (c, n) ∈ columns.zip names →
      (∀ r ∈ data.rows, alookup c r = none) →
      ∀ x ∈ getColD df n, x = Cell.nan) := by
  refine ⟨?_, ?_, ?_⟩
  · intro data columns
    rfl
  · intro data names columns df h hnd hlen
    exact format_dataframe_cols h hnd hlen
  · intro data names columns df c n h hndC hndN hlen hmem hmiss
    exact format_dataframe_missing_nan h hndC hndN hlen hmem hmiss

/-- C3 amended, witness: the missing-column clause on the concrete
fixture (the canonical column "X" of the successful result holds NaN)
together with the projection and column-order clauses. -/
theorem C3_amended_witness :
    (reindex rawC3 columnsC3).cols = columnsC3 ∧
    (okFrame (format_dataframe rawC3 namesC3 columnsC3)).cols =
      "Date" :: "Contract Name" :: namesC3.filter (fun c => !(isIndexKey c)) ∧
    Cell.nan = Cell.nan := by
  refine ⟨C3_amended_theorem.1 rawC3 columnsC3,
    C3_amended_theorem.2.1 rawC3 namesC3 columnsC3 _ (by rfl) (by decide) (by decide),
    C3_amended_theorem.2.2 rawC3 namesC3 columnsC3
      (okFrame (format_dataframe rawC3 namesC3 columnsC3)) "XS" "X"
      (by rfl) (by decide) (by decide) (by decide) (by decide) (by decide)
      Cell.nan (by decide)⟩

/-! ## Claim C4 — the tuple form of the contract selector -/

def dfC4 : DataFrame :=
  ⟨["Date", "Contract Name"],
   [[("Date", .date 1), ("Contract Name", .str "A")],
    [("Date", .date 2), ("Contract Name", .str "B")],
    [("Date", .date 3), ("Contract Name", .str "A")]]⟩

/-- C4 counterexample.  The claim says that when none of the given names
is present the result is an empty table, not an error.  In the source
the tuple branch builds a list of per-name selections and hands it to
pd.concat, which raises ValueError("No objects to concatenate") on an
empty list: with no name of the tuple present, get_contract raises. -/
theorem C4_counterexample :
    get_contract dfC4 (.tuple ["ZZZ", "YYY"]) =
      .error (.valueError "No objects to concatenate") := by
  rfl

/-- C4 amended: the tuple form returns exactly the concatenation, in
input-name order, of the matching row blocks of each name present in the
Contract Name column (each block in original table order, absent names
skipped) — but only when at least one name is present; when every given
name is absent, pd.concat receives an empty list and the call raises
ValueError("No objects to concatenate") instead of returning an empty
table. -/
theorem C4_amended_theorem :
    (∀ (df : DataFrame) (ts : List String),
      df.wf → "Contract Name" ∈ df.cols →
      (∃ t ∈ ts, (getColD df "Contract Name").contains (Cell.str t)) →
      get_contract df (.tuple ts) =
        .ok ⟨df.cols, (ts.filter (fun t =>
            (getColD df "Contract Name").contains (Cell.str t))).flatMap
          (fun t => df.rows.filter (matchesContract t))⟩) ∧
    (∀ (df : DataFrame) (ts : List String),
      "Contract Name" ∈ df.cols →
      (∀ t ∈ ts, ¬ (getColD df "Contract Name").contains (Cell.str t)) →
      get_contract df (.tuple ts) =
        .error (.valueError "No objects to concatenate")) := by
  refine ⟨?_, ?_⟩
  · intro df ts hwf hcn hex
    exact get_contract_tuple_some hwf hcn hex
  · intro df ts hcn hnone
    exact get_contract_tuple_none hcn hnone

/-- C4 amended, witness: both clauses on the concrete three-row table —
selecting ("B", "A") returns the B row followed by both A rows in
original order, and selecting two absent names raises. -/
theorem C4_amended_witness :
    get_contract dfC4 (.tuple ["B", "A"]) =
      .ok ⟨dfC4.cols, (["B", "A"].filter (fun t =>
          (getColD dfC4 "Contract Name").contains (Cell.str t))).flatMap
        (fun t => dfC4.rows.filter (matchesContract t))⟩ ∧
    get_contract dfC4 (.tuple ["ZZZ"]) =
      .error (.valueError "No objects to concatenate") := by
  exact ⟨C4_amended_theorem.1 dfC4 ["B", "A"] ⟨by decide, by decide⟩ (by decide) (by decide),
    C4_amended_theorem.2 dfC4 ["ZZZ"] (by decide) (by decide)⟩

/-! ## Claim C5 — columns and descending date order of the family get -/

/-- C5: for every valid report-type string (any run for which the family
operation succeeds from an unpopulated cache), the returned table's
columns include every canonical name of the family mapping plus the
family's derived net columns, and its parsed Date values read top to
bottom are non-increasing. -/
theorem C5_theorem :
    ∀ (env : Env) (s : CotState) (df : DataFrame) (s₂ : CotState),
      s.legacyCache = none →
      (env.legacyFormat.map Prod.snd).Nodup →
      classLegacyReport env s = .ok (df, s₂) →
      (∀ n ∈ env.legacyFormat.map Prod.fst, n ∈ df.cols) ∧
      "Net Position, Large Spec" ∈ df.cols ∧
      "Net Change, Large Spec" ∈ df.cols ∧
      "Net % of OI, Large Spec" ∈ df.cols ∧
      (datesOf df).Sorted (· ≥ ·) := by
  intro env s df s₂ hc hnd h
  obtain ⟨_, hp, _⟩ := classLegacyReport_ok_elim hc h
  obtain ⟨raw, d₂, d₃, _, _, hfmt, hder, rfl⟩ := classPipeline_ok_elim hp
  have hlen : (env.legacyFormat.map Prod.fst).length =
      (env.legacyFormat.map Prod.snd).length := by simp
  have hcols₂ := format_dataframe_cols hfmt hnd hlen
  have hmem := deriveLegacy_cols_mem hder
  refine ⟨?_, ?_, ?_, ?_, datesOf_sortDesc_sorted d₃⟩
  · intro n hn
    rw [cols_sortDesc]
    exact hmem.1 n (by rw [hcols₂]; exact mem_format_cols hn)
  · rw [cols_sortDesc]; exact hmem.2.1
  · rw [cols_sortDesc]; exact hmem.2.2.1
  · rw [cols_sortDesc]; exact hmem.2.2.2

/-- C5 witness: the concrete two-row run — the canonical name "Date" and
the derived net position column appear among the columns, and the dates
are non-increasing. -/
theorem C5_witness :
    st0.legacyCache = none ∧
    "Date" ∈ (okTableC (classLegacyReport env0 st0)).cols ∧
    "Net Position, Large Spec" ∈ (okTableC (classLegacyReport env0 st0)).cols ∧
    (datesOf (okTableC (classLegacyReport env0 st0))).Sorted (· ≥ ·) := by
  have h := C5_theorem env0 st0 (okTableC (classLegacyReport env0 st0))
    (okStateC (classLegacyReport env0 st0) st0) rfl (by decide) (by rfl)
  exact ⟨rfl, h.1 "Date" (by decide), h.2.1, h.2.2.2.2⟩

/-! ## Claim C6 — report type validation and defaulting -/

/-- C6: each family operation validates its report type against exactly
the two permitted variants of that family, raising InvalidReportType
carrying that valid set for any other value, and defaults a missing
report type to the combined futures-and-options variant of the
family. -/
theorem C6_theorem :
    legacyTypes = ["legacy_fut", "legacy_futopt"] ∧
    disaggregatedTypes = ["disaggregated_fut", "disaggregated_futopt"] ∧
    financialTypes = ["traders_in_financial_futures_fut",
      "traders_in_financial_futures_futopt"] ∧
    (∀ (env : Env) (s : CotState) (rt : String),
      s.legacyCache = none → s.report_type = some rt → rt ∉ legacyTypes →
      classLegacyReport env s = .error (.invalidReportType legacyTypes)) ∧
    (∀ (env : Env) (s : CotState) (rt : String),
      s.disaggregatedCache = none → s.report_type = some rt →
      rt ∉ disaggregatedTypes →
      classDisaggregatedReport env s =
        .error (.invalidReportType disaggregatedTypes)) ∧
    (∀ (env : Env) (s : CotState) (rt : String),
      s.financialCache = none → s.report_type = some rt → rt ∉ financialTypes →
      classFinancialReport env s = .error (.invalidReportType financialTypes)) ∧
    (∀ (env : Env) (s : CotState),
      s.legacyCache = none → s.report_type = none →
      classLegacyReport env s =
        match classPipeline env env.legacyFormat deriveLegacy "legacy_futopt" with
        | .error e => .error e
        | .ok df => .ok (df, { s with legacyCache := some df, runs := s.runs + 1 })) ∧
    (∀ (env : Env) (s : CotState),
      s.disaggregatedCache = none → s.report_type = none →
      classDisaggregatedReport env s =
        match classPipeline env env.disaggregatedFormat deriveDisaggregated
            "disaggregated_futopt" with
        | .error e => .error e
        | .ok df =>
          .ok (df, { s with disaggregatedCache := some df, runs := s.runs + 1 })) ∧
    (∀ (env : Env) (s : CotState),
      s.financialCache = none → s.report_type = none →
      classFinancialReport env s =
        match classPipeline env env.financialFormat deriveFinancial
            "traders_in_financial_futures_futopt" with
        | .error e => .error e
        | .ok df =>
          .ok (df, { s with financialCache := some df, runs := s.runs + 1 })) := by
  refine ⟨rfl, rfl, rfl, ?_, ?_, ?_, ?_, ?_, ?_⟩
  · intro env s rt hc hrt hmem
    exact classLegacyReport_invalid hc (by rw [hrt]; exact hmem)
  · intro env s rt hc hrt hmem
    exact classDisaggregatedReport_invalid hc (by rw [hrt]; exact hmem)
  · intro env s rt hc hrt hmem
    exact classFinancialReport_invalid hc (by rw [hrt]; exact hmem)
  · intro env s hc hrt
    simp [classLegacyReport, hc, hrt, legacyTypes]
  · intro env s hc hrt
    simp [classDisaggregatedReport, hc, hrt, disaggregatedTypes]
  · intro env s hc hrt
    simp [classFinancialReport, hc, hrt, financialTypes]

/-- C6 witness: the three validation clauses at the bogus report type
"bogus_type" and the legacy defaulting clause at a report-type-less
instance, all on the concrete fixture environment. -/
theorem C6_witness :
    classLegacyReport env0 ⟨some "bogus_type", none, none, none, 0⟩ =
      .error (.invalidReportType legacyTypes) ∧
    classDisaggregatedReport env0 ⟨some "bogus_type", none, none, none, 0⟩ =
      .error (.invalidReportType disaggregatedTypes) ∧
    classFinancialReport env0 ⟨some "bogus_type", none, none, none, 0⟩ =
      .error (.invalidReportType financialTypes) ∧
    classLegacyReport env0 ⟨none, none, none, none, 0⟩ =
      match classPipeline env0 env0.legacyFormat deriveLegacy "legacy_futopt" with
      | .error e => .error e
      | .ok df =>
        .ok (df, { (⟨none, none, none, none, 0⟩ : CotState) with
          legacyCache := some df, runs := 0 + 1 }) := by
  exact ⟨C6_theorem.2.2.2.1 env0 _ "bogus_type" rfl rfl (by decide),
    C6_theorem.2.2.2.2.1 env0 _ "bogus_type" rfl rfl (by decide),
    C6_theorem.2.2.2.2.2.1 env0 _ "bogus_type" rfl rfl (by decide),
    C6_theorem.2.2.2.2.2.2.1 env0 ⟨none, none, none, none, 0⟩ rfl rfl⟩

/-! ## Claim C7 — fragment assembly -/

/-- C7: the assembler takes the legacy fragment and then one yearly
fragment for each year from 2017 through the current calendar year
inclusive; a 404 year (None) contributes nothing without raising; the
result is the legacy rows followed by the yearly rows in ascending year
order, nothing dropped or reordered within any fragment. -/
theorem C7_theorem :
    ∀ (legacy : DataFrame) (yearly : Int → Option DataFrame) (current : Int),
      legacy.wf →
      (∀ (y : Int) (d : DataFrame), yearly y = some d →
        d.cols = legacy.cols ∧ d.wf) →
      get_reports legacy yearly current =
        .ok ⟨legacy.cols, legacy.rows ++ (yearsRange current).flatMap
          (fun y => match yearly y with | some d => d.rows | none => [])⟩ ∧
      (∀ y : Int, y ∈ yearsRange current ↔ 2017 ≤ y ∧ y ≤ current) := by
  intro legacy yearly current hwf hy
  exact ⟨get_reports_rows hwf hy, fun y => mem_yearsRange current y⟩

def lw : DataFrame := ⟨["a"], [[("a", .num 1)], [("a", .num 2)]]⟩

def d17 : DataFrame := ⟨["a"], [[("a", .num 3)]]⟩

def yw : Int → Option DataFrame := fun y => if y = 2017 then some d17 else none

/-- C7 witness: a concrete legacy fragment with one published year
(2017) and one 404 year (2018). -/
theorem C7_witness :
    get_reports lw yw 2018 =
      .ok ⟨lw.cols, lw.rows ++ (yearsRange 2018).flatMap
        (fun y => match yw y with | some d => d.rows | none => [])⟩ ∧
    (2017 ∈ yearsRange 2018 ↔ 2017 ≤ (2017 : Int) ∧ (2017 : Int) ≤ 2018) ∧
    (2019 ∈ yearsRange 2018 ↔ 2017 ≤ (2019 : Int) ∧ (2019 : Int) ≤ 2018) := by
  have h := C7_theorem lw yw 2018 ⟨by decide, by decide⟩ ?hy
  · exact ⟨h.1, h.2 2017, h.2 2019⟩
  case hy =>
    intro y d hyd
    simp only [yw] at hyd
    by_cases hy₂ : y = 2017
    · rw [if_pos hy₂] at hyd
      simp only [Option.some.injEq] at hyd
      subst hyd
      exact ⟨rfl, by decide, by decide⟩
    · rw [if_neg hy₂] at hyd
      simp at hyd

/-! ## Claim C8 — omitted contract_name -/

/-- C8 counterexample.  The claim says the per-family public query
operation accepts an omitted (None) contract_name and then returns the
full unfiltered table.  The class report method does the opposite: its
isinstance check rejects the default None with
TypeError("contract_name must be a string or a tuple"), even on an
instance with a valid bound report type. -/
theorem C8_counterexample :
    classReport env0 none st0 =
      .error (.typeError "contract_name must be a string or a tuple") := by
  rfl

/-- C8 amended: the module-level pycot.py functions accept an omitted
(None, falsy) contract_name and return the full unfiltered derived
table; the class report method instead raises TypeError when
contract_name is omitted; when a filter is supplied, the class method
applies get_contract to the per-instance cached full table on every
call, the instance state unchanged. -/
theorem C8_amended_theorem :
    (∀ (env : Env) (rt : String) (s : ModState) (df : DataFrame),
      alookup (rt, none) s.cache = none → rt ∈ legacyTypes →
      modPipelineLegacy env rt = .ok df →
      legacy_report env rt none s =
        .ok (df, ⟨((rt, none), df) :: s.cache, s.runs + 1⟩)) ∧
    (∀ (env : Env) (s : CotState) (rt : String),
      s.report_type = some rt →
      classReport env none s =
        .error (.typeError "contract_name must be a string or a tuple")) ∧
    (∀ (env : Env) (s : CotState) (rt : String) (f : ContractFilter)
        (df : DataFrame),
      s.report_type = some rt → rt ∈ legacyTypes → s.legacyCache = some df →
      classReport env (some f) s =
        (get_contract df f).map (fun r => (r, s))) := by
  refine ⟨?_, ?_, ?_⟩
  · intro env rt s df hc hrt hp
    exact legacy_report_none_full hc hrt hp
  · intro env s rt h
    exact classReport_none_typeError h
  · intro env s rt f df hrt hmem hc
    exact classReport_legacy_cached hrt hmem hc

/-- C8 amended, witness: the module function at a fresh cache returns
the full pipeline table for contract_name None; the class method at a
populated instance rejects None and filters the cached table per
call. -/
theorem C8_amended_witness :
    legacy_report env0 "legacy_fut" none ⟨[], 0⟩ =
      .ok (okFrame (modPipelineLegacy env0 "legacy_fut"),
        ⟨[(("legacy_fut", none), okFrame (modPipelineLegacy env0 "legacy_fut"))], 0 + 1⟩) ∧
    classReport env0 none ⟨some "legacy_fut", some dfC4, none, none, 0⟩ =
      .error (.typeError "contract_name must be a string or a tuple") ∧
    classReport env0 (some (.single "A"))
        ⟨some "legacy_fut", some dfC4, none, none, 0⟩ =
      (get_contract dfC4 (.single "A")).map
        (fun r => (r, ⟨some "legacy_fut", some dfC4, none, none, 0⟩)) := by
  exact ⟨C8_amended_theorem.1 env0 "legacy_fut" ⟨[], 0⟩
      (okFrame (modPipelineLegacy env0 "legacy_fut")) rfl (by decide) (by rfl),
    C8_amended_theorem.2.1 env0 ⟨some "legacy_fut", some dfC4, none, none, 0⟩
      "legacy_fut" rfl,
    C8_amended_theorem.2.2 env0 ⟨some "legacy_fut", some dfC4, none, none, 0⟩
      "legacy_fut" (.single "A") dfC4 rfl (by decide) rfl⟩

/-! ## Claim C9 — the empty-table failure -/

/-- C9 counterexample.  The claim says an empty assembled table raises a
distinct EmptyResult error and that the family operation always fails on
that input.  The class operation raises the generic builtin
ValueError("No data found for the selected report type: ...") — the
same exception class the code uses for unrelated failures such as a
missing report type in the report method — and the module-level pycot.py
function has no emptiness check at all: on the same empty environment it
returns a table. -/
theorem C9_counterexample :
    classLegacyReport envE st0 =
      .error (.valueError
        ("No data found for the selected report type: " ++ "legacy_fut")) ∧
    (legacy_report envE "legacy_fut" none ⟨[], 0⟩).isOk = true ∧
    classReport env0 (some (.single "A")) ⟨none, none, none, none, 0⟩ =
      .error (.valueError "Please select a report type to extract data from") := by
  exact ⟨rfl, rfl, rfl⟩

/-- C9 amended: when the assembled table for a family is empty, the
class-based operation raises the generic builtin ValueError with message
"No data found for the selected report type: <rt>" (there is no
distinct EmptyResult exception in the code); within that operation this
message arises only for an empty assembled table (every other failure is
a different exception class or a different message); and the
module-level pycot.py function performs no emptiness check, returning
the (empty) derived table instead of failing. -/
theorem C9_amended_theorem :
    (∀ (env : Env) (s : CotState) (rt : String) (raw : DataFrame),
      s.legacyCache = none → s.report_type = some rt → rt ∈ legacyTypes →
      get_reports (env.legacyRaw rt) (env.yearlyRaw rt) env.currentYear = .ok raw →
      raw.rows = [] →
      classLegacyReport env s = .error (.valueError
        ("No data found for the selected report type: " ++ rt))) ∧
    (∀ (env : Env) (s : CotState) (rt : String) (raw : DataFrame),
      s.legacyCache = none → s.report_type = some rt → rt ∈ legacyTypes →
      get_reports (env.legacyRaw rt) (env.yearlyRaw rt) env.currentYear = .ok raw →
      raw.rows ≠ [] →
      classLegacyReport env s ≠ .error (.valueError
        ("No data found for the selected report type: " ++ rt))) ∧
    (∀ (env : Env) (rt : String) (s : ModState) (df : DataFrame),
      alookup (rt, none) s.cache = none → rt ∈ legacyTypes →
      modPipelineLegacy env rt = .ok df → df.rows = [] →
      legacy_report env rt none s =
        .ok (df, ⟨((rt, none), df) :: s.cache, s.runs + 1⟩)) := by
  refine ⟨?_, ?_, ?_⟩
  · intro env s rt raw hc hrt hmem hraw hemp
    have hrt₂ : s.report_type.getD "legacy_futopt" = rt := by rw [hrt]; rfl
    simp only [classLegacyReport, hc, hrt₂, if_pos hmem]
    rw [classPipeline_empty hraw hemp]
  · intro env s rt raw hc hrt hmem hraw hne h
    have hrt₂ : s.report_type.getD "legacy_futopt" = rt := by rw [hrt]; rfl
    simp only [classLegacyReport, hc, hrt₂, if_pos hmem] at h
    split at h
    · rename_i e hp
      simp only [Except.error.injEq] at h
      exact classPipeline_nonempty_ne hraw hne
        (fun hd => deriveLegacy_error_shape hd)
        (hp.trans (congrArg Except.error h))
    · simp at h
  · intro env rt s df hc hrt hp _
    exact legacy_report_none_full hc hrt hp

/-- C9 amended, witness: the empty environment drives the class
operation into the generic ValueError while the module function returns
the empty table, and on the two-row environment the "No data found"
message cannot arise. -/
theorem C9_amended_witness :
    classLegacyReport envE st0 =
      .error (.valueError
        ("No data found for the selected report type: " ++ "legacy_fut")) ∧
    classLegacyReport env0 st0 ≠
      .error (.valueError
        ("No data found for the selected report type: " ++ "legacy_fut")) ∧
    legacy_report envE "legacy_fut" none ⟨[], 0⟩ =
      .ok (okFrame (modPipelineLegacy envE "legacy_fut"),
        ⟨[(("legacy_fut", none), okFrame (modPipelineLegacy envE "legacy_fut"))],
          0 + 1⟩) := by
  exact ⟨C9_amended_theorem.1 envE st0 "legacy_fut" ⟨envE.legacyRaw "legacy_fut" |>.cols, []⟩
      rfl rfl (by decide) (by rfl) rfl,
    C9_amended_theorem.2.1 env0 st0 "legacy_fut" (okFrame (get_reports
        (env0.legacyRaw "legacy_fut") (env0.yearlyRaw "legacy_fut") env0.currentYear))
      rfl rfl (by decide) (by rfl) (by decide),
    C9_amended_theorem.2.2 envE "legacy_fut" ⟨[], 0⟩
      (okFrame (modPipelineLegacy envE "legacy_fut")) rfl (by decide) (by rfl) (by rfl)⟩

/-! ## Claim C10 — contract selection never disturbs the cached table -/

/-- C10: contract selection is read-only.  The single-name selector only
returns rows of its input; a filtered report call against a populated
instance cache returns get_contract applied to the cached full table and
leaves the instance state — the cached table included — exactly as it
was, for each of the three families; hence any sequence of filtered
queries leaves the state unchanged, and in particular the short-column
negation performed at derivation time is never applied again (the run
counter never moves). -/
theorem C10_theorem :
    (∀ (df : DataFrame) (s : String) (r : Row),
      r ∈ (selectRows df s).rows → r ∈ df.rows) ∧
    (∀ (env : Env) (s : CotState) (rt : String) (f : ContractFilter)
        (df : DataFrame),
      s.report_type = some rt → rt ∈ legacyTypes → s.legacyCache = some df →
      classReport env (some f) s = (get_contract df f).map (fun r => (r, s)) ∧
      stateAfterClass (classReport env (some f) s) s = s) ∧
    (∀ (env : Env) (s : CotState) (rt : String) (f : ContractFilter)
        (df : DataFrame),
      s.report_type = some rt → rt ∈ disaggregatedTypes →
      s.disaggregatedCache = some df →
      classReport env (some f) s = (get_contract df f).map (fun r => (r, s)) ∧
      stateAfterClass (classReport env (some f) s) s = s) ∧
    (∀ (env : Env) (s : CotState) (rt : String) (f : ContractFilter)
        (df : DataFrame),
      s.report_type = some rt → rt ∈ financialTypes → s.financialCache = some df →
      classReport env (some f) s = (get_contract df f).map (fun r => (r, s)) ∧
      stateAfterClass (classReport env (some f) s) s = s) ∧
    (∀ (env : Env) (fs : List ContractFilter) (s : CotState) (rt : String)
        (df : DataFrame),
      s.report_type = some rt →
      ((rt ∈ legacyTypes ∧ s.legacyCache = some df) ∨
        (rt ∈ disaggregatedTypes ∧ s.disaggregatedCache = some df) ∨
        (rt ∈ financialTypes ∧ s.financialCache = some df)) →
      runQueries env fs s = s) := by
  have hstate : ∀ (env : Env) (s : CotState) (f : ContractFilter) (df : DataFrame),
      classReport env (some f) s = (get_contract df f).map (fun r => (r, s)) →
      stateAfterClass (classReport env (some f) s) s = s := by
    intro env s f df h
    rw [h]
    cases get_contract df f <;> rfl
  refine ⟨?_, ?_, ?_, ?_, ?_⟩
  · intro df s r hr
    exact selectRows_rows_sub df s r hr
  · intro env s rt f df hrt hmem hc
    have h := @classReport_legacy_cached env s rt f df hrt hmem hc
    exact ⟨h, hstate env s f df h⟩
  · intro env s rt f df hrt hmem hc
    have h := @classReport_disaggregated_cached env s rt f df hrt hmem hc
    exact ⟨h, hstate env s f df h⟩
  · intro env s rt f df hrt hmem hc
    have h := @classReport_financial_cached env s rt f df hrt hmem hc
    exact ⟨h, hstate env s f df h⟩
  · intro env fs s rt df hrt hcase
    induction fs with
    | nil => rfl
    | cons f fs ih =>
      have hone : stateAfterClass (classReport env (some f) s) s = s := by
        rcases hcase with ⟨hmem, hc⟩ | ⟨hmem, hc⟩ | ⟨hmem, hc⟩
        · exact hstate env s f df (@classReport_legacy_cached env s rt f df hrt hmem hc)
        · exact hstate env s f df
            (@classReport_disaggregated_cached env s rt f df hrt hmem hc)
        · exact hstate env s f df (@classReport_financial_cached env s rt f df hrt hmem hc)
      simp only [runQueries, List.foldl_cons, hone]
      exact ih

/-- C10 witness: two successive filtered queries (one matching name, one
tuple of absent names that even raises inside get_contract) leave the
populated instance state untouched. -/
theorem C10_witness :
    (classReport env0 (some (.single "A"))
        ⟨some "legacy_fut", some dfC4, none, none, 1⟩ =
      (get_contract dfC4 (.single "A")).map
        (fun r => (r, ⟨some "legacy_fut", some dfC4, none, none, 1⟩))) ∧
    runQueries env0 [.single "A", .tuple ["ZZZ"]]
        ⟨some "legacy_fut", some dfC4, none, none, 1⟩ =
      ⟨some "legacy_fut", some dfC4, none, none, 1⟩ := by
  exact ⟨(C10_theorem.2.1 env0 ⟨some "legacy_fut", some dfC4, none, none, 1⟩
      "legacy_fut" (.single "A") dfC4 rfl (by decide) rfl).1,
    C10_theorem.2.2.2.2 env0 [.single "A", .tuple ["ZZZ"]]
      ⟨some "legacy_fut", some dfC4, none, none, 1⟩ "legacy_fut" dfC4 rfl
      (Or.inl ⟨by decide, rfl⟩)⟩

end Pycot
